import Mathlib

/-!
Verification of the TitleCardMaker-CardTypes plugin classes
(`Supremicus/DawnTitleCard.py`, `Supremicus/HorizonTitleCard.py`,
`Yozora/SlimTitleCard.py`, `KHthe8th/TintedFramePlus.py`).

Each card class is embedded as a Lean structure holding the fields the
Python `__init__` stores in `__slots__`, and each command-building
property is a function from the card (and an `Env` of host-application
collaborators) to a list of ImageMagick command tokens.  The host
application (`BaseCardType`, `ImageMagickInterface`, `Path`,
`RemoteFile`) is outside this repository; its operations appear
abstractly as fields of `Env`.  Numeric parameters (Python floats and
ints) are modelled as `Rat` and `Int`.
-/

/-- Tokens of an ImageMagick command line.  Most arguments stay plain
strings mirroring the Python f-strings; arguments whose content the
claims inspect (text annotations via `-annotate {x:+}{y:+} "text"`,
`label:"text"` arguments, and `Rectangle(Coordinate a b, Coordinate x y).draw()`
calls into the host base class) are kept structured. -/
inductive Tok where
  | s (text : String) : Tok
  | annotate (x y : Rat) (text : String) : Tok
  | label (text : String) : Tok
  | rect (x1 y1 x2 y2 : Rat) : Tok
deriving DecidableEq, Repr

/-- Operations and constants supplied by the excluded host application:
`ImageMagickInterface.escape_chars`, `Path.exists`, `Path.resolve`
(also used for `RemoteFile` assets), `BaseCardType.get_text_dimensions`,
`ImageMagickInterface.get_image_dimensions`, the base-class subcommands
`resize_and_style`, `resize_output` and `add_overlay_mask`, and the
base-class canvas constants `WIDTH`, `HEIGHT`, `TITLE_CARD_SIZE`. -/
structure Env where
  escape : String → String
  fsExists : String → Bool
  resolve : String → String
  textDims : List Tok → Rat × Rat
  imageDims : String → Rat × Rat
  resizeAndStyle : List Tok
  resizeOutput : List Tok
  overlayMask : String → List Tok
  width : Rat
  height : Rat
  titleCardSize : String

/-- The final path component, as Python's `Path(p).name`. -/
def pathName (p : String) : String :=
  match (p.splitOn "/").getLast? with
  | some n => n
  | none => p

/-- All but the final path component, as Python's `Path(p).parent`. -/
def pathParent (p : String) : String :=
  String.intercalate "/" ((p.splitOn "/").dropLast)

/-- Python's `parent / name` path join. -/
def pathJoin (parent name : String) : String :=
  parent ++ "/" ++ name

/-- Python's `text.split('\n')`: the newline-separated segments of a
character list.  Splitting the empty string yields one empty segment. -/
def splitNl : List Char → List (List Char)
  | [] => [[]]
  | ch :: cs =>
    match splitNl cs with
    | [] => [[]]
    | line :: rest =>
      if ch = '\n' then [] :: line :: rest else (ch :: line) :: rest

/-- The text payloads rendered by a command list: the quoted arguments of
its `-annotate` commands and its `label:` arguments, in order. -/
def annTexts (toks : List Tok) : List String :=
  toks.filterMap fun t =>
    match t with
    | Tok.annotate _ _ text => some text
    | Tok.label text => some text
    | _ => none

/-- Horizontal alignment literals `'left' | 'center' | 'right'`. -/
inductive HAlign where
  | left
  | center
  | right
deriving DecidableEq, Repr

/-- TintedFramePlus element literals `'index' | 'logo' | 'omit'`
(`omitted` stands for the literal `'omit'`). -/
inductive Element where
  | index
  | logo
  | omitted
deriving DecidableEq, Repr

/-- Info of an episode, as far as the season-text formatters read it. -/
structure EpisodeInfo where
  season_number : Int

/-! ## DawnTitleCard (src/Supremicus/DawnTitleCard.py) -/

/-- Instance fields of `DawnTitleCard` (its `__slots__` plus the
base-class watch status read by `add_crt_overlay_commands`). -/
structure DawnTitleCard where
  source_file : String
  output_file : String
  title_text : String
  season_text : String
  episode_text : String
  hide_season_text : Bool
  hide_episode_text : Bool
  line_count : Nat
  font_color : String
  font_file : String
  font_interline_spacing : Int
  font_interword_spacing : Int
  font_kerning : Rat
  font_size : Rat
  font_stroke_width : Rat
  font_vertical_shift : Int
  stroke_color : String
  title_text_horizontal_shift : Int
  episode_text_vertical_shift : Int
  episode_text_font : String
  episode_text_font_size : Rat
  episode_text_color : String
  episode_text_stroke_color : String
  episode_text_kerning : Int
  separator : String
  h_align : HAlign
  crt_overlay : Option String
  crt_state_overlay : Bool
  omit_gradient : Bool
  watched : Bool

def DawnTitleCard.TITLE_FONT : String :=
  "Supremicus/ref/fonts/HelveticaNeue-Bold.ttf"

def DawnTitleCard.TITLE_COLOR : String := "white"

def DawnTitleCard.EPISODE_TEXT_FONT : String :=
  "Supremicus/ref/fonts/ExoSoft-Medium.ttf"

def DawnTitleCard.OVERLAY_PLAIN : String :=
  "Supremicus/ref/overlays/overlay_plain.png"

def DawnTitleCard.OVERLAY_PLAIN_BEZEL : String :=
  "Supremicus/ref/overlays/overlay_plain_bezel.png"

def DawnTitleCard.OVERLAY_PLAY : String :=
  "Supremicus/ref/overlays/overlay_play.png"

def DawnTitleCard.OVERLAY_PLAY_BEZEL : String :=
  "Supremicus/ref/overlays/overlay_play_bezel.png"

def DawnTitleCard.OVERLAY_REWIND : String :=
  "Supremicus/ref/overlays/overlay_rewind.png"

def DawnTitleCard.OVERLAY_REWIND_BEZEL : String :=
  "Supremicus/ref/overlays/overlay_rewind_bezel.png"

def DawnTitleCard.GRADIENT_IMAGE : String :=
  "Supremicus/ref/overlays/gradient.png"

/-- The keyword arguments of `DawnTitleCard.__init__` (those the body
stores; `watched` is set by the excluded base class from the watch
status of the episode). -/
structure DawnTitleCard.Params where
  source_file : String
  card_file : String
  title_text : String
  season_text : String
  episode_text : String
  hide_season_text : Bool := false
  hide_episode_text : Bool := false
  font_color : String := DawnTitleCard.TITLE_COLOR
  font_file : String := DawnTitleCard.TITLE_FONT
  font_interline_spacing : Int := 0
  font_interword_spacing : Int := 0
  font_kerning : Rat := 1
  font_size : Rat := 1
  font_stroke_width : Rat := 1
  font_vertical_shift : Int := 0
  stroke_color : String := "black"
  title_text_horizontal_shift : Int := 0
  episode_text_vertical_shift : Int := 0
  episode_text_font : String := DawnTitleCard.EPISODE_TEXT_FONT
  episode_text_font_size : Rat := 1
  episode_text_color : String := ""
  episode_text_stroke_color : String := ""
  episode_text_kerning : Int := 18
  separator : String := "•"
  h_align : HAlign := HAlign.left
  crt_overlay : Option String := none
  crt_state_overlay : Bool := false
  omit_gradient : Bool := true
  watched : Bool := false

/-- `DawnTitleCard.__init__` (lines 263-336): escape the texts, count
the title lines, store every customization. -/
def DawnTitleCard.init (env : Env) (p : DawnTitleCard.Params) :
    DawnTitleCard where
  source_file := p.source_file
  output_file := p.card_file
  title_text := env.escape p.title_text
  season_text := env.escape p.season_text
  episode_text := env.escape p.episode_text
  hide_season_text := p.hide_season_text
  hide_episode_text := p.hide_episode_text
  line_count := (splitNl p.title_text.data).length
  font_color := p.font_color
  font_file := p.font_file
  font_interline_spacing := p.font_interline_spacing
  font_interword_spacing := p.font_interword_spacing
  font_kerning := p.font_kerning
  font_size := p.font_size
  font_stroke_width := p.font_stroke_width
  font_vertical_shift := p.font_vertical_shift
  stroke_color := p.stroke_color
  title_text_horizontal_shift := p.title_text_horizontal_shift
  episode_text_vertical_shift := p.episode_text_vertical_shift
  episode_text_font := p.episode_text_font
  episode_text_font_size := p.episode_text_font_size
  episode_text_color := p.episode_text_color
  episode_text_stroke_color := p.episode_text_stroke_color
  episode_text_kerning := p.episode_text_kerning
  separator := p.separator
  h_align := p.h_align
  crt_overlay := p.crt_overlay
  crt_state_overlay := p.crt_state_overlay
  omit_gradient := p.omit_gradient
  watched := p.watched

/-- The `y` text offset of `DawnTitleCard.index_text_commands`
(lines 379-382): `80 + (50 + font_vertical_shift)
+ (124 * font_size) * line_count + episode_text_vertical_shift`. -/
def DawnTitleCard.indexY (c : DawnTitleCard) : Rat :=
  let offset : Rat := (124 * c.font_size) * (c.line_count : Rat)
  let vertical_shift : Rat := 50 + (c.font_vertical_shift : Rat)
  80 + vertical_shift + offset + (c.episode_text_vertical_shift : Rat)

/-- `DawnTitleCard.index_text_commands` (lines 339-394). -/
def DawnTitleCard.index_text_commands (c : DawnTitleCard) (env : Env) :
    List Tok :=
  if c.hide_season_text && c.hide_episode_text then []
  else
    let index_text :=
      if c.hide_season_text then c.episode_text
      else if c.hide_episode_text then c.season_text
      else c.season_text ++ " " ++ c.separator ++ " " ++ c.episode_text
    let gravity :=
      match c.h_align with
      | HAlign.left => "southwest"
      | HAlign.center => "south"
      | HAlign.right => "southeast"
    let x : Rat :=
      match c.h_align with
      | HAlign.left => 200
      | HAlign.center => 0
      | HAlign.right => 200
    let stroke_width : Rat := 4 * c.font_stroke_width
    let kerning := c.episode_text_kerning
    let pointsize : Rat := 60 * c.episode_text_font_size
    let font := env.resolve c.episode_text_font
    let base_commands : List Tok := [
      Tok.s ("-background transparent"),
      Tok.s (s!"-kerning {kerning}"),
      Tok.s (s!"-pointsize {pointsize}"),
      Tok.s ("-interword-spacing 14.5"),
      Tok.s (s!"-gravity {gravity}"),
      Tok.s (s!"-font \"{font}\"")]
    let escol := c.episode_text_stroke_color
    let ecol := c.episode_text_color
    let y := c.indexY
    base_commands ++ [
      Tok.s (s!"-fill {escol}"),
      Tok.s (s!"-stroke {escol}"),
      Tok.s (s!"-strokewidth {stroke_width}"),
      Tok.annotate x y index_text,
      Tok.s (s!"-fill \"{ecol}\""),
      Tok.s (s!"-stroke \"{ecol}\""),
      Tok.s ("-strokewidth 0"),
      Tok.annotate x y index_text]

/-- `DawnTitleCard.title_text_global_effects` (lines 425-454). -/
def DawnTitleCard.title_text_global_effects (c : DawnTitleCard)
    (env : Env) : List Tok :=
  let gravity :=
    match c.h_align with
    | HAlign.left => "southwest"
    | HAlign.center => "south"
    | HAlign.right => "southeast"
  let font_size : Rat := 124 * c.font_size
  let interline_spacing : Rat := -20 + (c.font_interline_spacing : Rat)
  let interword_spacing : Rat := 50 + (c.font_interword_spacing : Rat)
  let kerning : Rat := (-5/4 : Rat) * c.font_kerning
  let font := env.resolve c.font_file
  [Tok.s (s!"-font \"{font}\""),
    Tok.s (s!"-kerning {kerning}"),
    Tok.s (s!"-interline-spacing {interline_spacing}"),
    Tok.s (s!"-interword-spacing {interword_spacing}"),
    Tok.s (s!"-pointsize {font_size}"),
    Tok.s (s!"-gravity {gravity}")]

/-- `DawnTitleCard.title_text_black_stroke` (lines 457-473). -/
def DawnTitleCard.title_text_black_stroke (c : DawnTitleCard) :
    List Tok :=
  if c.font_stroke_width = 0 then []
  else
    let stroke_width : Rat := 4 * c.font_stroke_width
    let sc := c.stroke_color
    [Tok.s (s!"-fill \"{sc}\""),
      Tok.s (s!"-stroke \"{sc}\""),
      Tok.s (s!"-strokewidth {stroke_width}")]

/-- `DawnTitleCard.title_text_effects` (lines 476-484). -/
def DawnTitleCard.title_text_effects (c : DawnTitleCard) : List Tok :=
  let fc := c.font_color
  [Tok.s (s!"-fill \"{fc}\""),
    Tok.s (s!"-stroke \"{fc}\""),
    Tok.s ("-strokewidth 0")]

/-- `DawnTitleCard.title_text_commands` (lines 396-422). -/
def DawnTitleCard.title_text_commands (c : DawnTitleCard) (env : Env) :
    List Tok :=
  if c.title_text = "" then []
  else
    let x : Rat :=
      match c.h_align with
      | HAlign.left => 200 + (c.title_text_horizontal_shift : Rat)
      | HAlign.center => 0
      | HAlign.right => 200 + (c.title_text_horizontal_shift : Rat)
    let y : Rat := 80 + (50 + (c.font_vertical_shift : Rat))
    c.title_text_global_effects env
      ++ c.title_text_black_stroke
      ++ [Tok.annotate x y c.title_text]
      ++ c.title_text_effects
      ++ [Tok.annotate x y c.title_text]

/-- `DawnTitleCard.add_crt_overlay_commands` (lines 487-515). -/
def DawnTitleCard.add_crt_overlay_commands (c : DawnTitleCard)
    (env : Env) : List Tok :=
  match c.crt_overlay with
  | none => []
  | some overlay =>
    let crt_overlay_image :=
      if overlay = "nobezel" then
        if c.crt_state_overlay && !c.watched then
          DawnTitleCard.OVERLAY_PLAY
        else if c.crt_state_overlay && c.watched then
          DawnTitleCard.OVERLAY_REWIND
        else DawnTitleCard.OVERLAY_PLAIN
      else if overlay = "bezel" then
        if c.crt_state_overlay && !c.watched then
          DawnTitleCard.OVERLAY_PLAY_BEZEL
        else if c.crt_state_overlay && c.watched then
          DawnTitleCard.OVERLAY_REWIND_BEZEL
        else DawnTitleCard.OVERLAY_PLAIN_BEZEL
      else DawnTitleCard.OVERLAY_PLAIN
    let img := env.resolve crt_overlay_image
    [Tok.s (s!"\"{img}\""), Tok.s ("-composite")]

/-- `DawnTitleCard.gradient_commands` (lines 518-531). -/
def DawnTitleCard.gradient_commands (c : DawnTitleCard) (env : Env) :
    List Tok :=
  if c.omit_gradient then []
  else
    let img := env.resolve DawnTitleCard.GRADIENT_IMAGE
    [Tok.s (s!"\"{img}\""), Tok.s ("-composite")]

/-- `DawnTitleCard.SEASON_TEXT_FORMATTER` (lines 615-633).  Note that
the non-zero branch returns the plain string literal
`'S{season_number:02}'`, not an interpolated f-string. -/
def DawnTitleCard.SEASON_TEXT_FORMATTER (episode_info : EpisodeInfo) :
    String :=
  if episode_info.season_number = 0 then "Specials"
  else "S\x7bseason_number:02\x7d"

/-- `DawnTitleCard.create` (lines 636-659): the single
`image_magick.run` call, returned together with the (unchanged) card
state; the Python body assigns no attribute. -/
def DawnTitleCard.create (c : DawnTitleCard) (env : Env) :
    DawnTitleCard × List (List Tok) :=
  let src := env.resolve c.source_file
  let out := env.resolve c.output_file
  (c,
    [[Tok.s (s!"convert \"{src}\"")]
      ++ env.resizeAndStyle
      ++ c.gradient_commands env
      ++ c.index_text_commands env
      ++ c.title_text_commands env
      ++ c.add_crt_overlay_commands env
      ++ env.overlayMask c.source_file
      ++ env.resizeOutput
      ++ [Tok.s (s!"\"{out}\"")]])

/-- The pydantic `values` that `DawnTitleCard.CardModel`'s
`validate_episode_text_font_file` root validator reads and writes. -/
structure DawnTitleCard.ModelValues where
  episode_text_font : String
  font_file : String
  source_file : String

/-- `DawnTitleCard.CardModel.validate_episode_text_font_file`
(lines 189-207): substitute `'{title_font}'`, otherwise search for the
file alongside the source image, then require the file to exist. -/
def DawnTitleCard.validate_episode_text_font_file (env : Env)
    (values : DawnTitleCard.ModelValues) :
    Except String DawnTitleCard.ModelValues :=
  let values :=
    if values.episode_text_font = "\x7btitle_font\x7d" then
      { values with episode_text_font := values.font_file }
    else if !env.fsExists values.episode_text_font then
      let new_etf :=
        pathJoin (pathParent values.source_file)
          (pathName values.episode_text_font)
      if env.fsExists new_etf then
        { values with episode_text_font := new_etf }
      else values
    else values
  if !env.fsExists values.episode_text_font then
    Except.error
      (s!"Specified Episode Text Font ({values.episode_text_font}) does not exist")
  else Except.ok values

/-- The episode-text-font path that
`DawnTitleCard.validate_episode_text_font_file` ends up checking: the
literal `'{title_font}'` is replaced by the title font file, and a
non-existing path is redirected to an existing file of the same name
alongside the source image. -/
def DawnTitleCard.resolvedEpisodeTextFont (env : Env)
    (values : DawnTitleCard.ModelValues) : String :=
  if values.episode_text_font = "\x7btitle_font\x7d" then
    values.font_file
  else if env.fsExists values.episode_text_font then
    values.episode_text_font
  else
    let alongside :=
      pathJoin (pathParent values.source_file)
        (pathName values.episode_text_font)
    if env.fsExists alongside then alongside
    else values.episode_text_font

/-! ## HorizonTitleCard (src/Supremicus/HorizonTitleCard.py) -/

/-- Instance fields of `HorizonTitleCard` (its `__slots__` plus the
base-class watch status read by `add_crt_overlay_commands`). -/
structure HorizonTitleCard where
  source_file : String
  output_file : String
  title_text : String
  season_text : String
  episode_text : String
  hide_season_text : Bool
  hide_episode_text : Bool
  line_count : Nat
  font_color : String
  font_file : String
  font_interline_spacing : Int
  font_interword_spacing : Int
  font_kerning : Rat
  font_size : Rat
  font_stroke_width : Rat
  font_vertical_shift : Int
  stroke_color : String
  episode_text_vertical_shift : Int
  episode_text_font : String
  episode_text_font_size : Rat
  episode_text_color : String
  episode_text_stroke_color : String
  episode_text_kerning : Int
  separator : String
  h_align : HAlign
  logo : Option String
  symbol : Option String
  alignment_overlay : Bool
  crt_overlay : Option String
  crt_state_overlay : Bool
  omit_gradient : Bool
  watched : Bool

def HorizonTitleCard.TITLE_FONT : String :=
  "Supremicus/ref/fonts/HelveticaNeue-Bold.ttf"

def HorizonTitleCard.TITLE_COLOR : String := "white"

def HorizonTitleCard.EPISODE_TEXT_FONT : String :=
  "Supremicus/ref/fonts/ExoSoft-Medium.ttf"

def HorizonTitleCard.SYMBOL_IMAGE_ACOLYTE : String :=
  "Supremicus/ref/symbols/acolyte.png"

def HorizonTitleCard.SYMBOL_IMAGE_AHSOKA : String :=
  "Supremicus/ref/symbols/ahsoka.png"

def HorizonTitleCard.SYMBOL_IMAGE_ANDOR : String :=
  "Supremicus/ref/symbols/andor.png"

def HorizonTitleCard.SYMBOL_IMAGE_BOBAFETT : String :=
  "Supremicus/ref/symbols/bobafett.png"

def HorizonTitleCard.SYMBOL_IMAGE_MANDALORIAN : String :=
  "Supremicus/ref/symbols/mandalorian.png"

def HorizonTitleCard.SYMBOL_IMAGE_OBIWAN : String :=
  "Supremicus/ref/symbols/obiwan.png"

def HorizonTitleCard.SYMBOL_IMAGE_WITCHER : String :=
  "Supremicus/ref/symbols/witcher.png"

def HorizonTitleCard.ALIGNMENT_OVERLAY_IMAGE : String :=
  "Supremicus/ref/overlays/overlay_alignment.png"

def HorizonTitleCard.OVERLAY_PLAIN : String :=
  "Supremicus/ref/overlays/overlay_plain.png"

def HorizonTitleCard.OVERLAY_PLAIN_BEZEL : String :=
  "Supremicus/ref/overlays/overlay_plain_bezel.png"

def HorizonTitleCard.OVERLAY_PLAY : String :=
  "Supremicus/ref/overlays/overlay_play.png"

def HorizonTitleCard.OVERLAY_PLAY_BEZEL : String :=
  "Supremicus/ref/overlays/overlay_play_bezel.png"

def HorizonTitleCard.OVERLAY_REWIND : String :=
  "Supremicus/ref/overlays/overlay_rewind.png"

def HorizonTitleCard.OVERLAY_REWIND_BEZEL : String :=
  "Supremicus/ref/overlays/overlay_rewind_bezel.png"

def HorizonTitleCard.GRADIENT_IMAGE : String :=
  "Supremicus/ref/overlays/radial_gradient.png"

/-- The arguments of `HorizonTitleCard.__init__` (those the body
stores; `watched` is set by the excluded base class). -/
structure HorizonTitleCard.Params where
  source_file : String
  card_file : String
  title_text : String
  season_text : String
  episode_text : String
  hide_season_text : Bool := false
  hide_episode_text : Bool := false
  font_color : String := HorizonTitleCard.TITLE_COLOR
  font_file : String := HorizonTitleCard.TITLE_FONT
  font_interline_spacing : Int := 0
  font_interword_spacing : Int := 0
  font_kerning : Rat := 1
  font_size : Rat := 1
  font_stroke_width : Rat := 1
  font_vertical_shift : Int := 0
  stroke_color : String := "black"
  episode_text_vertical_shift : Int := 0
  episode_text_font : String := HorizonTitleCard.EPISODE_TEXT_FONT
  episode_text_font_size : Rat := 1
  episode_text_color : String := ""
  episode_text_stroke_color : String := ""
  episode_text_kerning : Int := 18
  separator : String := "•"
  h_align : HAlign := HAlign.left
  logo_file : Option String := none
  symbol : Option String := none
  alignment_overlay : Bool := false
  crt_overlay : Option String := none
  crt_state_overlay : Bool := false
  omit_gradient : Bool := true
  watched : Bool := false

/-- `HorizonTitleCard.__init__` (lines 292-378). -/
def HorizonTitleCard.init (env : Env) (p : HorizonTitleCard.Params) :
    HorizonTitleCard where
  source_file := p.source_file
  output_file := p.card_file
  title_text := env.escape p.title_text
  season_text := env.escape p.season_text
  episode_text := env.escape p.episode_text
  hide_season_text := p.hide_season_text
  hide_episode_text := p.hide_episode_text
  line_count := (splitNl p.title_text.data).length
  font_color := p.font_color
  font_file := p.font_file
  font_interline_spacing := p.font_interline_spacing
  font_interword_spacing := p.font_interword_spacing
  font_kerning := p.font_kerning
  font_size := p.font_size
  font_stroke_width := p.font_stroke_width
  font_vertical_shift := p.font_vertical_shift
  stroke_color := p.stroke_color
  episode_text_vertical_shift := p.episode_text_vertical_shift
  episode_text_font := p.episode_text_font
  episode_text_font_size := p.episode_text_font_size
  episode_text_color := p.episode_text_color
  episode_text_stroke_color := p.episode_text_stroke_color
  episode_text_kerning := p.episode_text_kerning
  separator := p.separator
  h_align := p.h_align
  logo := p.logo_file
  symbol := p.symbol
  alignment_overlay := p.alignment_overlay
  crt_overlay := p.crt_overlay
  crt_state_overlay := p.crt_state_overlay
  omit_gradient := p.omit_gradient
  watched := p.watched

/-- The `y` text offset of `HorizonTitleCard.index_text_commands`
(lines 410-412): `900 - (124 * font_size / 2) * line_count
+ episode_text_vertical_shift - 30`. -/
def HorizonTitleCard.indexY (c : HorizonTitleCard) : Rat :=
  let offset : Rat := (124 * c.font_size / 2) * (c.line_count : Rat)
  900 - offset + (c.episode_text_vertical_shift : Rat) - 30

/-- `HorizonTitleCard.index_text_commands` (lines 381-425). -/
def HorizonTitleCard.index_text_commands (c : HorizonTitleCard)
    (env : Env) : List Tok :=
  if c.hide_season_text && c.hide_episode_text then []
  else
    let index_text :=
      if c.hide_season_text then c.episode_text
      else if c.hide_episode_text then c.season_text
      else c.season_text ++ " " ++ c.separator ++ " " ++ c.episode_text
    let stroke_width : Rat := 4 * c.font_stroke_width
    let kerning := c.episode_text_kerning
    let pointsize : Rat := 60 * c.episode_text_font_size
    let font := env.resolve c.episode_text_font
    let base_commands : List Tok := [
      Tok.s ("-background transparent"),
      Tok.s (s!"-kerning {kerning}"),
      Tok.s (s!"-pointsize {pointsize}"),
      Tok.s ("-interword-spacing 14.5"),
      Tok.s ("-gravity north"),
      Tok.s (s!"-font \"{font}\"")]
    let y := c.indexY
    let x : Rat := if c.h_align = HAlign.left then -700 else 700
    let escol := c.episode_text_stroke_color
    let ecol := c.episode_text_color
    base_commands ++ [
      Tok.s (s!"-fill {escol}"),
      Tok.s (s!"-stroke {escol}"),
      Tok.s (s!"-strokewidth {stroke_width}"),
      Tok.annotate x y index_text,
      Tok.s (s!"-fill \"{ecol}\""),
      Tok.s (s!"-stroke \"{ecol}\""),
      Tok.s ("-strokewidth 0"),
      Tok.annotate x y index_text]

/-- `HorizonTitleCard.title_text_global_effects` (lines 452-472). -/
def HorizonTitleCard.title_text_global_effects (c : HorizonTitleCard)
    (env : Env) : List Tok :=
  let font_size : Rat := 124 * c.font_size
  let interline_spacing : Rat := -26 + (c.font_interline_spacing : Rat)
  let interword_spacing : Rat := 50 + (c.font_interword_spacing : Rat)
  let kerning : Rat := (-5/4 : Rat) * c.font_kerning
  let font := env.resolve c.font_file
  [Tok.s (s!"-font \"{font}\""),
    Tok.s (s!"-kerning {kerning}"),
    Tok.s (s!"-interline-spacing {interline_spacing}"),
    Tok.s (s!"-interword-spacing {interword_spacing}"),
    Tok.s (s!"-pointsize {font_size}"),
    Tok.s ("-gravity north")]

/-- `HorizonTitleCard.title_text_black_stroke` (lines 475-491). -/
def HorizonTitleCard.title_text_black_stroke (c : HorizonTitleCard) :
    List Tok :=
  if c.font_stroke_width = 0 then []
  else
    let stroke_width : Rat := 4 * c.font_stroke_width
    let sc := c.stroke_color
    [Tok.s (s!"-fill \"{sc}\""),
      Tok.s (s!"-stroke \"{sc}\""),
      Tok.s (s!"-strokewidth {stroke_width}")]

/-- `HorizonTitleCard.title_text_commands` (lines 427-449). -/
def HorizonTitleCard.title_text_commands (c : HorizonTitleCard)
    (env : Env) : List Tok :=
  if c.title_text = "" then []
  else
    let font_size : Rat := 124 * c.font_size
    let offset : Rat := (font_size / 2) * (c.line_count : Rat)
    let vertical_shift : Rat := 42 + (c.font_vertical_shift : Rat)
    let x : Rat := if c.h_align = HAlign.left then -700 else 700
    let y : Rat := 900 - offset + vertical_shift - 12
    let fc := c.font_color
    c.title_text_global_effects env
      ++ c.title_text_black_stroke
      ++ [Tok.annotate x y c.title_text,
        Tok.s (s!"-fill \"{fc}\""),
        Tok.s (s!"-stroke \"{fc}\""),
        Tok.s ("-strokewidth 0"),
        Tok.annotate x y c.title_text]

/-- The `SYMBOLS.get(self.symbol)` lookup of
`HorizonTitleCard.add_symbol_image_commands` (lines 498-508). -/
def HorizonTitleCard.symbolImage (c : HorizonTitleCard) :
    Option String :=
  match c.symbol with
  | none => none
  | some sym =>
    if sym = "acolyte" then some HorizonTitleCard.SYMBOL_IMAGE_ACOLYTE
    else if sym = "ahsoka" then some HorizonTitleCard.SYMBOL_IMAGE_AHSOKA
    else if sym = "andor" then some HorizonTitleCard.SYMBOL_IMAGE_ANDOR
    else if sym = "bobafett" then
      some HorizonTitleCard.SYMBOL_IMAGE_BOBAFETT
    else if sym = "mandalorian" then
      some HorizonTitleCard.SYMBOL_IMAGE_MANDALORIAN
    else if sym = "obiwan" then some HorizonTitleCard.SYMBOL_IMAGE_OBIWAN
    else if sym = "witcher" then
      some HorizonTitleCard.SYMBOL_IMAGE_WITCHER
    else if sym = "logo" then c.logo
    else none

/-- `HorizonTitleCard.add_symbol_image_commands` (lines 494-521). -/
def HorizonTitleCard.add_symbol_image_commands (c : HorizonTitleCard)
    (env : Env) : List Tok :=
  match c.symbolImage with
  | none => []
  | some symbol_image =>
    if !env.fsExists symbol_image then []
    else
      let x : Rat := if c.h_align = HAlign.left then -700 else 700
      let img := env.resolve symbol_image
      let geom := if x < 0 then s!"\\) -geometry {x}+0"
        else s!"\\) -geometry +{x}+0"
      [Tok.s ("-gravity center"),
        Tok.s (s!"\\( \"{img}\""),
        Tok.s ("-resize x850"),
        Tok.s ("-resize 850x850\\>"),
        Tok.s (geom),
        Tok.s ("-composite")]

/-- `HorizonTitleCard.add_crt_overlay_commands` (lines 524-551). -/
def HorizonTitleCard.add_crt_overlay_commands (c : HorizonTitleCard)
    (env : Env) : List Tok :=
  match c.crt_overlay with
  | none => []
  | some overlay =>
    let crt_overlay_image :=
      if overlay = "nobezel" then
        if c.crt_state_overlay && !c.watched then
          HorizonTitleCard.OVERLAY_PLAY
        else if c.crt_state_overlay && c.watched then
          HorizonTitleCard.OVERLAY_REWIND
        else HorizonTitleCard.OVERLAY_PLAIN
      else if overlay = "bezel" then
        if c.crt_state_overlay && !c.watched then
          HorizonTitleCard.OVERLAY_PLAY_BEZEL
        else if c.crt_state_overlay && c.watched then
          HorizonTitleCard.OVERLAY_REWIND_BEZEL
        else HorizonTitleCard.OVERLAY_PLAIN_BEZEL
      else HorizonTitleCard.OVERLAY_PLAIN
    let img := env.resolve crt_overlay_image
    [Tok.s (s!"\"{img}\""), Tok.s ("-composite")]

/-- `HorizonTitleCard.gradient_commands` (lines 554-570). -/
def HorizonTitleCard.gradient_commands (c : HorizonTitleCard)
    (env : Env) : List Tok :=
  if c.omit_gradient then []
  else
    let rotation : Nat := if c.h_align = HAlign.left then 0 else 180
    let img := env.resolve HorizonTitleCard.GRADIENT_IMAGE
    [Tok.s (s!"\\( \"{img}\""),
      Tok.s (s!"-rotate {rotation} \\)"),
      Tok.s ("-composite")]

/-- `HorizonTitleCard.add_alignment_overlay` (lines 573-585). -/
def HorizonTitleCard.add_alignment_overlay (c : HorizonTitleCard)
    (env : Env) : List Tok :=
  if !c.alignment_overlay then []
  else
    let img := env.resolve HorizonTitleCard.ALIGNMENT_OVERLAY_IMAGE
    [Tok.s (s!"\"{img}\""), Tok.s ("-composite")]

/-- `HorizonTitleCard.SEASON_TEXT_FORMATTER` (lines 665-683); the same
body as `DawnTitleCard.SEASON_TEXT_FORMATTER`. -/
def HorizonTitleCard.SEASON_TEXT_FORMATTER (episode_info : EpisodeInfo) :
    String :=
  if episode_info.season_number = 0 then "Specials"
  else "S\x7bseason_number:02\x7d"

/-- `HorizonTitleCard.create` (lines 686-713). -/
def HorizonTitleCard.create (c : HorizonTitleCard) (env : Env) :
    HorizonTitleCard × List (List Tok) :=
  let src := env.resolve c.source_file
  let out := env.resolve c.output_file
  (c,
    [[Tok.s (s!"convert \"{src}\"")]
      ++ env.resizeAndStyle
      ++ c.gradient_commands env
      ++ c.add_symbol_image_commands env
      ++ c.index_text_commands env
      ++ c.title_text_commands env
      ++ c.add_crt_overlay_commands env
      ++ env.overlayMask c.source_file
      ++ c.add_alignment_overlay env
      ++ env.resizeOutput
      ++ [Tok.s (s!"\"{out}\"")]])

/-- The pydantic `values` that `HorizonTitleCard.CardModel`'s
`validate_episode_text_font_file` root validator reads and writes. -/
structure HorizonTitleCard.ModelValues where
  episode_text_font : String
  font_file : String
  source_file : String

/-- `HorizonTitleCard.CardModel.validate_episode_text_font_file`
(lines 206-223); the same logic as the Dawn validator. -/
def HorizonTitleCard.validate_episode_text_font_file (env : Env)
    (values : HorizonTitleCard.ModelValues) :
    Except String HorizonTitleCard.ModelValues :=
  let values :=
    if values.episode_text_font = "\x7btitle_font\x7d" then
      { values with episode_text_font := values.font_file }
    else if !env.fsExists values.episode_text_font then
      let new_etf :=
        pathJoin (pathParent values.source_file)
          (pathName values.episode_text_font)
      if env.fsExists new_etf then
        { values with episode_text_font := new_etf }
      else values
    else values
  if !env.fsExists values.episode_text_font then
    Except.error
      (s!"Specified Episode Text Font ({values.episode_text_font}) does not exist")
  else Except.ok values

/-- The episode-text-font path that
`HorizonTitleCard.validate_episode_text_font_file` ends up checking. -/
def HorizonTitleCard.resolvedEpisodeTextFont (env : Env)
    (values : HorizonTitleCard.ModelValues) : String :=
  if values.episode_text_font = "\x7btitle_font\x7d" then
    values.font_file
  else if env.fsExists values.episode_text_font then
    values.episode_text_font
  else
    let alongside :=
      pathJoin (pathParent values.source_file)
        (pathName values.episode_text_font)
    if env.fsExists alongside then alongside
    else values.episode_text_font

/-! ## SlimTitleCard (src/Yozora/SlimTitleCard.py) -/

/-- Instance fields of `SlimTitleCard` (its `__slots__`). -/
structure SlimTitleCard where
  source_file : String
  output_file : String
  title_text : String
  season_text : String
  episode_text : String
  hide_season_text : Bool
  hide_episode_text : Bool
  font_color : String
  font_file : String
  font_interline_spacing : Int
  font_kerning : Rat
  font_size : Rat
  font_stroke_width : Rat
  font_vertical_shift : Int
  omit_gradient : Bool

def SlimTitleCard.TITLE_FONT : String :=
  "Yozora/ref/slim/Comfortaa-Regular.ttf"

def SlimTitleCard.TITLE_COLOR : String := "#FFFFFF"

def SlimTitleCard.GRADIENT_IMAGE : String := "Yozora/ref/slim/GRADIENT.png"

def SlimTitleCard.SEASON_COUNT_FONT : String :=
  "Yozora/ref/slim/Comfortaa-SemiBold.ttf"

def SlimTitleCard.EPISODE_COUNT_FONT : String :=
  "Yozora/ref/slim/Comfortaa-Regular.ttf"

def SlimTitleCard.SERIES_COUNT_TEXT_COLOR : String := "#a5a5a5"

/-- The keyword arguments of `SlimTitleCard.__init__` (those the body
stores). -/
structure SlimTitleCard.Params where
  source_file : String
  card_file : String
  title_text : String
  season_text : String
  episode_text : String
  hide_season_text : Bool := false
  hide_episode_text : Bool := false
  font_color : String := SlimTitleCard.TITLE_COLOR
  font_file : String := SlimTitleCard.TITLE_FONT
  font_interline_spacing : Int := 0
  font_kerning : Rat := 1
  font_size : Rat := 1
  font_stroke_width : Rat := 1
  font_vertical_shift : Int := 0
  omit_gradient : Bool := false

/-- `SlimTitleCard.__init__` (lines 92-137). -/
def SlimTitleCard.init (env : Env) (p : SlimTitleCard.Params) :
    SlimTitleCard where
  source_file := p.source_file
  output_file := p.card_file
  title_text := env.escape p.title_text
  season_text := env.escape p.season_text
  episode_text := env.escape p.episode_text
  hide_season_text := p.hide_season_text
  hide_episode_text := p.hide_episode_text
  font_color := p.font_color
  font_file := p.font_file
  font_interline_spacing := p.font_interline_spacing
  font_kerning := p.font_kerning
  font_size := p.font_size
  font_stroke_width := p.font_stroke_width
  font_vertical_shift := p.font_vertical_shift
  omit_gradient := p.omit_gradient

/-- `SlimTitleCard.__title_text_global_effects` (lines 140-159). -/
def SlimTitleCard.title_text_global_effects (c : SlimTitleCard) :
    List Tok :=
  let font_size : Rat := (15741/100 : Rat) * c.font_size
  let interline_spacing : Rat := -22 + (c.font_interline_spacing : Rat)
  let kerning : Rat := (-5/4 : Rat) * c.font_kerning
  let ff := c.font_file
  [Tok.s (s!"-font \"{ff}\""),
    Tok.s (s!"-kerning {kerning}"),
    Tok.s ("-interword-spacing 50"),
    Tok.s (s!"-interline-spacing {interline_spacing}"),
    Tok.s (s!"-pointsize {font_size}"),
    Tok.s ("-gravity south")]

/-- `SlimTitleCard.__title_text_black_stroke` (lines 162-174). -/
def SlimTitleCard.title_text_black_stroke (c : SlimTitleCard) :
    List Tok :=
  let stroke_width : Rat := 1 * c.font_stroke_width
  [Tok.s ("-fill black"),
    Tok.s ("-stroke black"),
    Tok.s (s!"-strokewidth {stroke_width}")]

/-- `SlimTitleCard.__series_count_text_global_effects`
(lines 177-187). -/
def SlimTitleCard.series_count_text_global_effects : List Tok :=
  [Tok.s ("-kerning 5.42"), Tok.s ("-pointsize 67.75")]

/-- `SlimTitleCard.__series_count_text_black_stroke` (lines 190-201). -/
def SlimTitleCard.series_count_text_black_stroke : List Tok :=
  [Tok.s ("-fill black"),
    Tok.s ("-stroke black"),
    Tok.s ("-strokewidth 6")]

/-- `SlimTitleCard.__series_count_text_effects` (lines 204-212). -/
def SlimTitleCard.series_count_text_effects : List Tok :=
  let cc := SlimTitleCard.SERIES_COUNT_TEXT_COLOR
  [Tok.s (s!"-fill \"{cc}\""),
    Tok.s (s!"-stroke \"{cc}\""),
    Tok.s ("-strokewidth 0.75")]

/-- `SlimTitleCard.title_text_command` (lines 215-227). -/
def SlimTitleCard.title_text_command (c : SlimTitleCard) : List Tok :=
  let vertical_shift : Rat := 100 + (c.font_vertical_shift : Rat)
  let fc := c.font_color
  c.title_text_global_effects
    ++ c.title_text_black_stroke
    ++ [Tok.annotate 0 vertical_shift c.title_text,
      Tok.s (s!"-fill \"{fc}\""),
      Tok.annotate 0 vertical_shift c.title_text]

/-- `SlimTitleCard.index_text_command` (lines 230-288). -/
def SlimTitleCard.index_text_command (c : SlimTitleCard) : List Tok :=
  if c.hide_season_text && c.hide_episode_text then []
  else if c.hide_season_text then
    let ef := SlimTitleCard.EPISODE_COUNT_FONT
    SlimTitleCard.series_count_text_global_effects
      ++ [Tok.s (s!"-font \"{ef}\""), Tok.s ("-gravity center")]
      ++ SlimTitleCard.series_count_text_black_stroke
      ++ [Tok.annotate 0 (3486/5 : Rat) c.episode_text]
      ++ SlimTitleCard.series_count_text_effects
      ++ [Tok.annotate 0 (3486/5 : Rat) c.episode_text]
  else if c.hide_episode_text then
    let sf := SlimTitleCard.SEASON_COUNT_FONT
    SlimTitleCard.series_count_text_global_effects
      ++ [Tok.s (s!"-font \"{sf}\""), Tok.s ("-gravity center")]
      ++ SlimTitleCard.series_count_text_black_stroke
      ++ [Tok.annotate 0 (3486/5 : Rat) c.season_text]
      ++ SlimTitleCard.series_count_text_effects
      ++ [Tok.annotate 0 (3486/5 : Rat) c.season_text]
  else
    let sf := SlimTitleCard.SEASON_COUNT_FONT
    let ef := SlimTitleCard.EPISODE_COUNT_FONT
    [Tok.s ("-background transparent"),
      Tok.s ("+interword-spacing"),
      Tok.s ("-gravity south"),
      Tok.s ("\\(")]
      ++ SlimTitleCard.series_count_text_global_effects
      ++ SlimTitleCard.series_count_text_black_stroke
      ++ [Tok.s (s!"-font \"{sf}\""),
        Tok.label c.season_text,
        Tok.label ("• "),
        Tok.s (s!"-font \"{ef}\""),
        Tok.label c.episode_text,
        Tok.s ("+smush 15"),
        Tok.s ("\\)"),
        Tok.s ("-geometry +0+35"),
        Tok.s ("-composite"),
        Tok.s ("\\(")]
      ++ SlimTitleCard.series_count_text_global_effects
      ++ SlimTitleCard.series_count_text_effects
      ++ [Tok.s (s!"-font \"{sf}\""),
        Tok.label c.season_text,
        Tok.label ("• "),
        Tok.s (s!"-font \"{ef}\""),
        Tok.label c.episode_text,
        Tok.s ("+smush 18"),
        Tok.s ("\\)"),
        Tok.s ("-geometry +0+35"),
        Tok.s ("-composite")]

/-- `SlimTitleCard.create` (lines 339-363). -/
def SlimTitleCard.create (c : SlimTitleCard) (env : Env) :
    SlimTitleCard × List (List Tok) :=
  let gradient_command : List Tok :=
    if c.omit_gradient then []
    else
      let img := env.resolve SlimTitleCard.GRADIENT_IMAGE
      [Tok.s (s!"\"{img}\""), Tok.s ("-composite")]
  let src := env.resolve c.source_file
  let out := env.resolve c.output_file
  (c,
    [[Tok.s (s!"convert \"{src}\"")]
      ++ env.resizeAndStyle
      ++ gradient_command
      ++ c.title_text_command
      ++ c.index_text_command
      ++ env.overlayMask c.source_file
      ++ env.resizeOutput
      ++ [Tok.s (s!"\"{out}\"")]])

/-! ## TintedFramePlus (src/KHthe8th/TintedFramePlus.py) -/

/-- Instance fields of `TintedFramePlus` (its `__slots__` plus the
base-class `blur` style read by `blur_commands`). -/
structure TintedFramePlus where
  source_file : String
  output_file : String
  logo : Option String
  title_text : String
  season_text : String
  episode_text : String
  hide_season_text : Bool
  hide_episode_text : Bool
  font_color : String
  font_file : String
  font_interline_spacing : Int
  font_interword_spacing : Int
  font_kerning : Rat
  font_size : Rat
  font_stroke_width : Rat
  font_vertical_shift : Int
  blur_edges : Bool
  bottom_element : Element
  episode_text_color : String
  episode_text_font : String
  episode_text_font_size : Rat
  episode_text_vertical_shift : Int
  frame_color : String
  frame_width : Int
  middle_element : Element
  logo_size : Rat
  stroke_color : String
  top_element : Element
  separator : String
  blur : Bool

def TintedFramePlus.TITLE_COLOR : String := "white"

def TintedFramePlus.EPISODE_TEXT_FONT : String :=
  "ref/tinted_frame/Galey Semi Bold.ttf"

/-- `TintedFramePlus.BOX_OFFSET`: pixels from the image edge to the
frame box. -/
def TintedFramePlus.BOX_OFFSET : Rat := 185

/-- `TintedFramePlus.BOX_WIDTH`: the default frame width. -/
def TintedFramePlus.BOX_WIDTH : Int := 3

/-- The keyword arguments of `TintedFramePlus.__init__` (those the body
stores; `blur` is kept by the excluded base class and read back by
`blur_commands`). -/
structure TintedFramePlus.Params where
  source_file : String
  card_file : String
  logo_file : Option String
  title_text : String
  season_text : String
  episode_text : String
  hide_season_text : Bool := false
  hide_episode_text : Bool := false
  font_color : String := TintedFramePlus.TITLE_COLOR
  font_file : String := "ref/tinted_frame/Galey Semi Bold.ttf"
  font_interline_spacing : Int := 0
  font_interword_spacing : Int := 0
  font_kerning : Rat := 1
  font_size : Rat := 1
  font_stroke_width : Rat := 1
  font_vertical_shift : Int := 0
  blur : Bool := false
  separator : String := "-"
  stroke_color : String := "black"
  episode_text_color : String := ""
  episode_text_font : String := TintedFramePlus.EPISODE_TEXT_FONT
  episode_text_font_size : Rat := 1
  episode_text_vertical_shift : Int := 0
  frame_color : String := ""
  frame_width : Int := TintedFramePlus.BOX_WIDTH
  top_element : Element := Element.logo
  middle_element : Element := Element.omitted
  bottom_element : Element := Element.index
  logo_size : Rat := 1
  blur_edges : Bool := true

/-- `TintedFramePlus.__init__` (lines 148-222). -/
def TintedFramePlus.init (env : Env) (p : TintedFramePlus.Params) :
    TintedFramePlus where
  source_file := p.source_file
  output_file := p.card_file
  logo := p.logo_file
  title_text := env.escape p.title_text
  season_text := env.escape p.season_text
  episode_text := env.escape p.episode_text
  hide_season_text := p.hide_season_text
  hide_episode_text := p.hide_episode_text
  font_color := p.font_color
  font_file := p.font_file
  font_interline_spacing := p.font_interline_spacing
  font_interword_spacing := p.font_interword_spacing
  font_kerning := p.font_kerning
  font_size := p.font_size
  font_stroke_width := p.font_stroke_width
  font_vertical_shift := p.font_vertical_shift
  blur_edges := p.blur_edges
  bottom_element := p.bottom_element
  episode_text_color := p.episode_text_color
  episode_text_font := p.episode_text_font
  episode_text_font_size := p.episode_text_font_size
  episode_text_vertical_shift := p.episode_text_vertical_shift
  frame_color := p.frame_color
  frame_width := p.frame_width
  middle_element := p.middle_element
  logo_size := p.logo_size
  stroke_color := p.stroke_color
  top_element := p.top_element
  separator := p.separator
  blur := p.blur

/-- Whether the card's logo is given and exists on disk (the negation of
`self.logo is None or not self.logo.exists()`). -/
def TintedFramePlus.logoPresent (c : TintedFramePlus) (env : Env) :
    Bool :=
  match c.logo with
  | none => false
  | some l => env.fsExists l

/-- `TintedFramePlus.blur_commands` (lines 225-247). -/
def TintedFramePlus.blur_commands (c : TintedFramePlus) (env : Env) :
    List Tok :=
  if !c.blur_edges || c.blur then []
  else
    let crop_width : Rat := env.width - 2 * TintedFramePlus.BOX_OFFSET - 6
    let crop_height : Rat := env.height - 2 * TintedFramePlus.BOX_OFFSET - 4
    let src := env.resolve c.source_file
    [Tok.s ("-blur 0x20"),
      Tok.s ("-gravity center"),
      Tok.s (s!"\\( \"{src}\"")]
      ++ env.resizeAndStyle
      ++ [Tok.s (s!"-crop {crop_width}x{crop_height}+0+0"),
        Tok.s ("+repage \\)"),
        Tok.s ("-composite")]

/-- `TintedFramePlus.index_text_commands` (lines 250-292). -/
def TintedFramePlus.index_text_commands (c : TintedFramePlus)
    (env : Env) : List Tok :=
  if (c.top_element ≠ Element.index ∧ c.bottom_element ≠ Element.index)
      ∨ (c.hide_season_text ∧ c.hide_episode_text) then []
  else
    let index_text :=
      if c.hide_season_text then c.episode_text
      else if c.hide_episode_text then c.season_text
      else c.season_text ++ " " ++ c.separator ++ " " ++ c.episode_text
    let vertical_shift : Int :=
      (if c.top_element = Element.index then -708 else 722)
        + c.episode_text_vertical_shift
    let pointsize : Rat := 60 * c.episode_text_font_size
    let font := env.resolve c.episode_text_font
    let ecol := c.episode_text_color
    let geom :=
      if vertical_shift < 0 then s!"-geometry +0{vertical_shift}"
      else s!"-geometry +0+{vertical_shift}"
    [Tok.s ("-background transparent"),
      Tok.s (s!"\\( -font \"{font}\""),
      Tok.s ("+kerning +interline-spacing +interword-spacing"),
      Tok.s (s!"-pointsize {pointsize}"),
      Tok.s (s!"-fill \"{ecol}\""),
      Tok.label index_text,
      Tok.s ("\\( +clone"),
      Tok.s ("-shadow 80x3+6+6 \\)"),
      Tok.s ("+swap"),
      Tok.s ("-layers merge"),
      Tok.s ("+repage \\)"),
      Tok.s ("-gravity center"),
      Tok.s (geom),
      Tok.s ("-composite")]

/-- `TintedFramePlus.logo_commands` (lines 295-338). -/
def TintedFramePlus.logo_commands (c : TintedFramePlus) (env : Env) :
    List Tok :=
  if (c.top_element ≠ Element.logo ∧ c.middle_element ≠ Element.logo
      ∧ c.bottom_element ≠ Element.logo) ∨ c.logoPresent env = false then
    []
  else
    let vertical_shift : Int :=
      if c.top_element = Element.logo then -720
      else if c.middle_element = Element.logo then 0
      else if c.bottom_element = Element.logo then 700
      else 0
    let logo_height : Rat :=
      if c.middle_element = Element.logo then 350 * c.logo_size
      else 150 * c.logo_size
    let resize_command : List Tok :=
      if c.middle_element = Element.logo then
        let rw : Rat := 2500 * c.logo_size
        [Tok.s (s!"-resize x{logo_height}"),
          Tok.s (s!"-resize {rw}x{logo_height}\\>")]
      else [Tok.s (s!"-resize x{logo_height}")]
    let lg := env.resolve ((c.logo).getD "")
    let geom :=
      if vertical_shift < 0 then s!"-geometry +0{vertical_shift}"
      else s!"-geometry +0+{vertical_shift}"
    [Tok.s (s!"\\( \"{lg}\"")]
      ++ resize_command
      ++ [Tok.s ("\\) -gravity center"),
        Tok.s (geom),
        Tok.s ("-composite")]

/-- The measured width of the element intersecting the top of the
frame (`_frame_top_commands`, lines 363-376): the index text's maximal
text width, or the logo's width rescaled to a 150px height and the
logo size. -/
def TintedFramePlus.topElementWidth (c : TintedFramePlus) (env : Env) :
    Rat :=
  if c.top_element = Element.index then
    (env.textDims (c.index_text_commands env)).1
  else
    let wh := env.imageDims ((c.logo).getD "")
    wh.1 / (wh.2 / 150) * c.logo_size

/-- The measured width of the element intersecting the bottom of the
frame (`_frame_bottom_commands`, lines 429-442). -/
def TintedFramePlus.bottomElementWidth (c : TintedFramePlus)
    (env : Env) : Rat :=
  if c.bottom_element = Element.index then
    (env.textDims (c.index_text_commands env)).1
  else
    let wh := env.imageDims ((c.logo).getD "")
    wh.1 / (wh.2 / 150) * c.logo_size

/-- `TintedFramePlus._frame_top_commands` (lines 341-399);
`Rectangle(Coordinate a b, Coordinate x y).draw()` is `Tok.rect a b x y`. -/
def TintedFramePlus.frame_top_commands (c : TintedFramePlus)
    (env : Env) : List Tok :=
  let INSET : Rat := TintedFramePlus.BOX_OFFSET
  let BW : Rat := (c.frame_width : Rat)
  if c.top_element = Element.omitted
      ∨ (c.top_element = Element.index
        ∧ c.hide_season_text ∧ c.hide_episode_text)
      ∨ (c.top_element = Element.logo ∧ c.logoPresent env = false) then
    [Tok.rect INSET INSET (env.width - INSET) (INSET + BW)]
  else
    let element_width := c.topElementWidth env
    let margin : Rat := 25
    let left_box_x := env.width / 2 - element_width / 2 - margin
    let right_box_x := env.width / 2 + element_width / 2 + margin
    if left_box_x < INSET ∨ right_box_x > env.width - INSET then []
    else
      [Tok.rect INSET INSET left_box_x (INSET + BW),
        Tok.rect right_box_x INSET (env.width - INSET) (INSET + BW)]

/-- `TintedFramePlus._frame_bottom_commands` (lines 402-465). -/
def TintedFramePlus.frame_bottom_commands (c : TintedFramePlus)
    (env : Env) : List Tok :=
  let INSET : Rat := TintedFramePlus.BOX_OFFSET
  let BW : Rat := (c.frame_width : Rat)
  if c.bottom_element = Element.omitted
      ∨ (c.bottom_element = Element.index
        ∧ c.hide_season_text ∧ c.hide_episode_text)
      ∨ (c.bottom_element = Element.logo ∧ c.logoPresent env = false) then
    [Tok.rect INSET (env.height - INSET - BW) (env.width - INSET)
      (env.height - INSET)]
  else
    let element_width := c.bottomElementWidth env
    let margin : Rat := 25
    let left_box_x := env.width / 2 - element_width / 2 - margin
    let right_box_x := env.width / 2 + element_width / 2 + margin
    if left_box_x < INSET ∨ right_box_x > env.width - INSET then []
    else
      [Tok.rect INSET (env.height - INSET - BW) left_box_x
        (env.height - INSET),
        Tok.rect right_box_x (env.height - INSET - BW)
          (env.width - INSET) (env.height - INSET)]

/-- `TintedFramePlus.frame_commands` (lines 468-513). -/
def TintedFramePlus.frame_commands (c : TintedFramePlus) (env : Env) :
    List Tok :=
  let INSET : Rat := TintedFramePlus.BOX_OFFSET
  let BW : Rat := (c.frame_width : Rat)
  let top := c.frame_top_commands env
  let left := [Tok.rect INSET INSET (INSET + BW) (env.height - INSET)]
  let right :=
    [Tok.rect (env.width - INSET - BW) INSET (env.width - INSET)
      (env.height - INSET)]
  let bottom := c.frame_bottom_commands env
  let size := env.titleCardSize
  let fcol := c.frame_color
  [Tok.s (s!"\\( -size {size}"),
    Tok.s ("xc:transparent"),
    Tok.s ("+stroke"),
    Tok.s (s!"-fill \"{fcol}\"")]
    ++ top ++ left ++ right ++ bottom
    ++ [Tok.s ("\\( +clone"),
      Tok.s ("-shadow 80x3+4+4 \\)"),
      Tok.s ("+swap"),
      Tok.s ("-layers merge"),
      Tok.s ("+repage \\)"),
      Tok.s ("-geometry +0+0"),
      Tok.s ("-composite")]

/-- `TintedFramePlus.black_title_commands` (lines 569-587). -/
def TintedFramePlus.black_title_commands (c : TintedFramePlus) :
    List Tok :=
  if c.font_stroke_width = 0 then []
  else
    let stroke_width : Rat := 3 * c.font_stroke_width
    let vertical_shift : Rat := 245 + (c.font_vertical_shift : Rat)
    let sc := c.stroke_color
    [Tok.s (s!"-fill \"{sc}\""),
      Tok.s (s!"-stroke \"{sc}\""),
      Tok.s (s!"-strokewidth {stroke_width}"),
      Tok.annotate 0 vertical_shift c.title_text]

/-- `TintedFramePlus.create` (lines 612-650); the source space-joins
these arguments into one string and passes it to a single
`image_magick.run` call. -/
def TintedFramePlus.create (c : TintedFramePlus) (env : Env) :
    TintedFramePlus × List (List Tok) :=
  let font_size : Rat := (15741/100 : Rat) * c.font_size
  let interline_spacing : Rat := -22 + (c.font_interline_spacing : Rat)
  let interword_spacing : Rat := 50 + (c.font_interword_spacing : Rat)
  let kerning : Rat := (-5/4 : Rat) * c.font_kerning
  let vertical_shift : Rat := 245 + (c.font_vertical_shift : Rat)
  let src := env.resolve c.source_file
  let out := env.resolve c.output_file
  let ff := c.font_file
  let fc := c.font_color
  (c,
    [[Tok.s (s!"convert \"{src}\"")]
      ++ env.resizeAndStyle
      ++ c.blur_commands env
      ++ [Tok.s ("-gravity south"),
        Tok.s (s!"-font \"{ff}\""),
        Tok.s (s!"-kerning {kerning}"),
        Tok.s (s!"-interword-spacing {interword_spacing}"),
        Tok.s (s!"-interline-spacing {interline_spacing}"),
        Tok.s (s!"-pointsize {font_size}")]
      ++ c.black_title_commands
      ++ [Tok.s (s!"-fill \"{fc}\""),
        Tok.annotate 0 vertical_shift c.title_text]
      ++ c.index_text_commands env
      ++ c.logo_commands env
      ++ c.frame_commands env
      ++ env.overlayMask c.source_file
      ++ env.resizeOutput
      ++ [Tok.s (s!"\"{out}\"")]])

/-- The pydantic `values` that the `TintedFramePlus.CardModel` root
validators read and write. -/
structure TintedFramePlus.ModelValues where
  episode_text_font : String
  source_file : String
  logo_file : String
  top_element : Element
  middle_element : Element
  bottom_element : Element
  episode_text_color : Option String
  frame_color : Option String
  font_color : String

/-- `TintedFramePlus.CardModel.validate_episode_text_font_file`
(lines 71-81): search alongside the source image, then require the
file to exist (no `'{title_font}'` substitution in this class). -/
def TintedFramePlus.validate_episode_text_font_file (env : Env)
    (values : TintedFramePlus.ModelValues) :
    Except String TintedFramePlus.ModelValues :=
  let values :=
    if !env.fsExists values.episode_text_font then
      let new_etf :=
        pathJoin (pathParent values.source_file)
          (pathName values.episode_text_font)
      if env.fsExists new_etf then
        { values with episode_text_font := new_etf }
      else values
    else values
  if !env.fsExists values.episode_text_font then
    Except.error ("Specified Episode Text Font does not exist")
  else Except.ok values

/-- The episode-text-font path that
`TintedFramePlus.validate_episode_text_font_file` ends up checking. -/
def TintedFramePlus.resolvedEpisodeTextFont (env : Env)
    (values : TintedFramePlus.ModelValues) : String :=
  if env.fsExists values.episode_text_font then
    values.episode_text_font
  else
    let alongside :=
      pathJoin (pathParent values.source_file)
        (pathName values.episode_text_font)
    if env.fsExists alongside then alongside
    else values.episode_text_font

/-- `TintedFramePlus.CardModel.validate_extras` (lines 83-104): require
an existing logo when one is indicated, forbid equal elements, and
default the `None` colors to the font color. -/
def TintedFramePlus.validate_extras (env : Env)
    (values : TintedFramePlus.ModelValues) :
    Except String TintedFramePlus.ModelValues :=
  let top := values.top_element
  let middle := values.middle_element
  let bottom := values.bottom_element
  if (top = Element.logo ∨ middle = Element.logo ∨ bottom = Element.logo)
      ∧ ¬env.fsExists values.logo_file then
    Except.error ("Logo file indicated and does not exist")
  else if (top ≠ Element.omitted ∧ (top = middle ∨ top = bottom))
      ∨ (middle ≠ Element.omitted ∧ middle = bottom) then
    Except.error ("Top/middle/bottom elements cannot be the same")
  else
    let values :=
      match values.episode_text_color with
      | none => { values with episode_text_color := some values.font_color }
      | some _ => values
    let values :=
      match values.frame_color with
      | none => { values with frame_color := some values.font_color }
      | some _ => values
    Except.ok values

/-! ## Concrete inputs for evaluating the embeddings -/

/-- A concrete host environment: no escaping, every file exists, paths
resolve to themselves, fixed measured dimensions, the 3200x1800 canvas
of the host's `BaseCardType`. -/
def sampleEnv : Env where
  escape := id
  fsExists := fun _ => true
  resolve := id
  textDims := fun _ => (100, 40)
  imageDims := fun _ => (300, 150)
  resizeAndStyle := []
  resizeOutput := []
  overlayMask := fun _ => []
  width := 3200
  height := 1800
  titleCardSize := "3200x1800"

def sampleDawnParams : DawnTitleCard.Params where
  source_file := "source/show/s1e1.jpg"
  card_file := "cards/show/s1e1.jpg"
  title_text := "PILOT"
  season_text := "SEASON ONE"
  episode_text := "EPISODE ONE"

def sampleHorizonParams : HorizonTitleCard.Params where
  source_file := "source/show/s1e1.jpg"
  card_file := "cards/show/s1e1.jpg"
  title_text := "PILOT"
  season_text := "SEASON ONE"
  episode_text := "EPISODE ONE"

def sampleSlimParams : SlimTitleCard.Params where
  source_file := "source/show/s1e1.jpg"
  card_file := "cards/show/s1e1.jpg"
  title_text := "PILOT"
  season_text := "SEASON ONE"
  episode_text := "EPISODE ONE"

def sampleTFPParams : TintedFramePlus.Params where
  source_file := "source/show/s1e1.jpg"
  card_file := "cards/show/s1e1.jpg"
  logo_file := some "source/show/logo.png"
  title_text := "PILOT"
  season_text := "SEASON ONE"
  episode_text := "EPISODE ONE"

/-! ## Theorems -/

/-- Splitting a character list on newlines always yields at least one
segment, exactly as Python's `str.split('\n')`. -/
theorem splitNl_length_pos (l : List Char) : 1 ≤ (splitNl l).length := by
  induction l with
  | nil => simp [splitNl]
  | cons ch cs ih =>
    cases h : splitNl cs with
    | nil => rw [h] at ih; simp at ih
    | cons line rest =>
      simp only [splitNl, h]
      split <;> simp

/-- C7: for every constructed card instance of every card class,
`create()` leaves every field of the instance unchanged: the Python
bodies only read attributes and emit the command, so the embedded
`create` returns the card state as it received it. -/
theorem create_preserves_card_state (env : Env) (cd : DawnTitleCard)
    (ch : HorizonTitleCard) (cs : SlimTitleCard) (ct : TintedFramePlus) :
    (cd.create env).1 = cd ∧ (ch.create env).1 = ch
      ∧ (cs.create env).1 = cs ∧ (ct.create env).1 = ct :=
  ⟨rfl, rfl, rfl, rfl⟩

/-- C8 counterexample: at season number 1 the formatters return the
literal string `'S{season_number:02}'`, which has nineteen characters,
not twenty as the claim states. -/
theorem season_text_formatter_literal_length :
    DawnTitleCard.SEASON_TEXT_FORMATTER ⟨1⟩ = "S\x7bseason_number:02\x7d"
      ∧ HorizonTitleCard.SEASON_TEXT_FORMATTER ⟨1⟩
        = "S\x7bseason_number:02\x7d"
      ∧ (DawnTitleCard.SEASON_TEXT_FORMATTER ⟨1⟩).length = 19
      ∧ ¬(DawnTitleCard.SEASON_TEXT_FORMATTER ⟨1⟩).length = 20 := by
  decide

/-- C8 (amended): for season number 0 both season-text formatters
return `'Specials'`; for every other season number they return the
literal nineteen-character string `'S{season_number:02}'`, identical
for every such season number and identical between the two classes. -/
theorem season_text_formatter_spec (e : EpisodeInfo) :
    (e.season_number = 0 →
      DawnTitleCard.SEASON_TEXT_FORMATTER e = "Specials"
        ∧ HorizonTitleCard.SEASON_TEXT_FORMATTER e = "Specials")
    ∧ (¬e.season_number = 0 →
      DawnTitleCard.SEASON_TEXT_FORMATTER e = "S\x7bseason_number:02\x7d"
        ∧ HorizonTitleCard.SEASON_TEXT_FORMATTER e
          = DawnTitleCard.SEASON_TEXT_FORMATTER e
        ∧ (DawnTitleCard.SEASON_TEXT_FORMATTER e).length = 19) := by
  constructor
  · intro h
    simp [DawnTitleCard.SEASON_TEXT_FORMATTER,
      HorizonTitleCard.SEASON_TEXT_FORMATTER, h]
  · intro h
    have hd : DawnTitleCard.SEASON_TEXT_FORMATTER e
        = "S\x7bseason_number:02\x7d" := by
      simp [DawnTitleCard.SEASON_TEXT_FORMATTER, h]
    have hh : HorizonTitleCard.SEASON_TEXT_FORMATTER e
        = "S\x7bseason_number:02\x7d" := by
      simp [HorizonTitleCard.SEASON_TEXT_FORMATTER, h]
    exact ⟨hd, hh.trans hd.symm, by rw [hd]; decide⟩

/-- C2: for every constructed card instance of every card class,
`create()` emits exactly one external command, whose argument sequence
begins with `convert` applied to the resolved source file and ends with
the resolved output file path. -/
theorem create_single_convert_command (env : Env) (cd : DawnTitleCard)
    (ch : HorizonTitleCard) (cs : SlimTitleCard) (ct : TintedFramePlus) :
    (∃ cmd, (cd.create env).2 = [cmd]
      ∧ cmd.head? = some (Tok.s ("convert \"" ++ env.resolve cd.source_file ++ "\""))
      ∧ cmd.getLast? = some (Tok.s ("\"" ++ env.resolve cd.output_file ++ "\"")))
    ∧ (∃ cmd, (ch.create env).2 = [cmd]
      ∧ cmd.head? = some (Tok.s ("convert \"" ++ env.resolve ch.source_file ++ "\""))
      ∧ cmd.getLast? = some (Tok.s ("\"" ++ env.resolve ch.output_file ++ "\"")))
    ∧ (∃ cmd, (cs.create env).2 = [cmd]
      ∧ cmd.head? = some (Tok.s ("convert \"" ++ env.resolve cs.source_file ++ "\""))
      ∧ cmd.getLast? = some (Tok.s ("\"" ++ env.resolve cs.output_file ++ "\"")))
    ∧ (∃ cmd, (ct.create env).2 = [cmd]
      ∧ cmd.head? = some (Tok.s ("convert \"" ++ env.resolve ct.source_file ++ "\""))
      ∧ cmd.getLast? = some (Tok.s ("\"" ++ env.resolve ct.output_file ++ "\""))) := by
  refine ⟨⟨_, rfl, rfl, ?_⟩, ⟨_, rfl, rfl, ?_⟩, ⟨_, rfl, rfl, ?_⟩,
    ⟨_, rfl, rfl, ?_⟩⟩ <;>
    exact (List.getLast?_append_of_ne_nil _ (by simp)).trans rfl

/-- C10: for Dawn, Horizon and TintedFramePlus instances, the
black-stroke subcommand list is empty exactly when `font_stroke_width`
is 0; otherwise it sets fill and stroke to `stroke_color` and the
stroke width to the fixed multiple of `font_stroke_width` (4.0 for Dawn
and Horizon, 3.0 for TintedFramePlus, which also annotates the title
with that stroke). -/
theorem black_stroke_spec (cd : DawnTitleCard) (ch : HorizonTitleCard)
    (ct : TintedFramePlus) :
    ((cd.title_text_black_stroke = [] ↔ cd.font_stroke_width = 0)
      ∧ (¬cd.font_stroke_width = 0 →
        cd.title_text_black_stroke =
          [Tok.s (s!"-fill \"{cd.stroke_color}\""),
            Tok.s (s!"-stroke \"{cd.stroke_color}\""),
            Tok.s (s!"-strokewidth {4*cd.font_stroke_width}")]))
    ∧ ((ch.title_text_black_stroke = [] ↔ ch.font_stroke_width = 0)
      ∧ (¬ch.font_stroke_width = 0 →
        ch.title_text_black_stroke =
          [Tok.s (s!"-fill \"{ch.stroke_color}\""),
            Tok.s (s!"-stroke \"{ch.stroke_color}\""),
            Tok.s (s!"-strokewidth {4*ch.font_stroke_width}")]))
    ∧ ((ct.black_title_commands = [] ↔ ct.font_stroke_width = 0)
      ∧ (¬ct.font_stroke_width = 0 →
        ct.black_title_commands =
          [Tok.s (s!"-fill \"{ct.stroke_color}\""),
            Tok.s (s!"-stroke \"{ct.stroke_color}\""),
            Tok.s (s!"-strokewidth {3*ct.font_stroke_width}"),
            Tok.annotate 0 (245 + (ct.font_vertical_shift : Rat))
              ct.title_text])) := by
  refine ⟨⟨?_, ?_⟩, ⟨?_, ?_⟩, ⟨?_, ?_⟩⟩
  · by_cases h : cd.font_stroke_width = 0 <;>
      simp [DawnTitleCard.title_text_black_stroke, h]
  · intro h; simp [DawnTitleCard.title_text_black_stroke, h]
  · by_cases h : ch.font_stroke_width = 0 <;>
      simp [HorizonTitleCard.title_text_black_stroke, h]
  · intro h; simp [HorizonTitleCard.title_text_black_stroke, h]
  · by_cases h : ct.font_stroke_width = 0 <;>
      simp [TintedFramePlus.black_title_commands, h]
  · intro h; simp [TintedFramePlus.black_title_commands, h]

/-- C9: for Dawn and Horizon instances, `line_count` is the number of
newline-separated segments of the raw `title_text` and is at least 1;
an empty `title_text` yields `line_count` 1 while
`title_text_commands` emits nothing, and the index-text vertical offset
scales linearly with `line_count`, so it always includes one title
line's worth of shift. -/
theorem title_line_count_spec (env : Env) (p : DawnTitleCard.Params)
    (q : HorizonTitleCard.Params) :
    ((DawnTitleCard.init env p).line_count
        = (splitNl p.title_text.data).length
      ∧ 1 ≤ (DawnTitleCard.init env p).line_count
      ∧ (p.title_text = "" →
          (DawnTitleCard.init env p).line_count = 1
            ∧ (env.escape "" = "" →
              (DawnTitleCard.init env p).title_text_commands env = []))
      ∧ DawnTitleCard.indexY (DawnTitleCard.init env p)
          = 80 + (50 + (p.font_vertical_shift : Rat))
            + (124 * p.font_size)
              * (((DawnTitleCard.init env p).line_count : Nat) : Rat)
            + (p.episode_text_vertical_shift : Rat))
    ∧ ((HorizonTitleCard.init env q).line_count
        = (splitNl q.title_text.data).length
      ∧ 1 ≤ (HorizonTitleCard.init env q).line_count
      ∧ (q.title_text = "" →
          (HorizonTitleCard.init env q).line_count = 1
            ∧ (env.escape "" = "" →
              (HorizonTitleCard.init env q).title_text_commands env = []))
      ∧ HorizonTitleCard.indexY (HorizonTitleCard.init env q)
          = 900 - (124 * q.font_size / 2)
              * (((HorizonTitleCard.init env q).line_count : Nat) : Rat)
            + (q.episode_text_vertical_shift : Rat) - 30) := by
  refine ⟨⟨rfl, splitNl_length_pos _, ?_, rfl⟩,
    ⟨rfl, splitNl_length_pos _, ?_, rfl⟩⟩
  · intro h
    refine ⟨by simp [DawnTitleCard.init, h, splitNl], ?_⟩
    intro hesc
    have : (DawnTitleCard.init env p).title_text = "" := by
      simp [DawnTitleCard.init, h, hesc]
    simp [DawnTitleCard.title_text_commands, this]
  · intro h
    refine ⟨by simp [HorizonTitleCard.init, h, splitNl], ?_⟩
    intro hesc
    have : (HorizonTitleCard.init env q).title_text = "" := by
      simp [HorizonTitleCard.init, h, hesc]
    simp [HorizonTitleCard.title_text_commands, this]

/-- C1: every command-building operation of every card class is a pure
function of the card's construction parameters and the (fixed) host
environment: two instances of the same class constructed with identical
parameters yield identical command lists from every builder, on every
evaluation. -/
theorem command_builders_pure (env : Env)
    (p q : DawnTitleCard.Params) (hpq : p = q)
    (r t : HorizonTitleCard.Params) (hrt : r = t)
    (u v : SlimTitleCard.Params) (huv : u = v)
    (w z : TintedFramePlus.Params) (hwz : w = z) :
    ((DawnTitleCard.init env p).index_text_commands env
        = (DawnTitleCard.init env q).index_text_commands env
      ∧ (DawnTitleCard.init env p).title_text_commands env
        = (DawnTitleCard.init env q).title_text_commands env
      ∧ (DawnTitleCard.init env p).title_text_black_stroke
        = (DawnTitleCard.init env q).title_text_black_stroke
      ∧ (DawnTitleCard.init env p).add_crt_overlay_commands env
        = (DawnTitleCard.init env q).add_crt_overlay_commands env
      ∧ (DawnTitleCard.init env p).gradient_commands env
        = (DawnTitleCard.init env q).gradient_commands env
      ∧ (DawnTitleCard.init env p).create env
        = (DawnTitleCard.init env q).create env)
    ∧ ((HorizonTitleCard.init env r).index_text_commands env
        = (HorizonTitleCard.init env t).index_text_commands env
      ∧ (HorizonTitleCard.init env r).title_text_commands env
        = (HorizonTitleCard.init env t).title_text_commands env
      ∧ (HorizonTitleCard.init env r).add_symbol_image_commands env
        = (HorizonTitleCard.init env t).add_symbol_image_commands env
      ∧ (HorizonTitleCard.init env r).add_crt_overlay_commands env
        = (HorizonTitleCard.init env t).add_crt_overlay_commands env
      ∧ (HorizonTitleCard.init env r).gradient_commands env
        = (HorizonTitleCard.init env t).gradient_commands env
      ∧ (HorizonTitleCard.init env r).add_alignment_overlay env
        = (HorizonTitleCard.init env t).add_alignment_overlay env
      ∧ (HorizonTitleCard.init env r).create env
        = (HorizonTitleCard.init env t).create env)
    ∧ ((SlimTitleCard.init env u).title_text_command
        = (SlimTitleCard.init env v).title_text_command
      ∧ (SlimTitleCard.init env u).index_text_command
        = (SlimTitleCard.init env v).index_text_command
      ∧ (SlimTitleCard.init env u).create env
        = (SlimTitleCard.init env v).create env)
    ∧ ((TintedFramePlus.init env w).blur_commands env
        = (TintedFramePlus.init env z).blur_commands env
      ∧ (TintedFramePlus.init env w).index_text_commands env
        = (TintedFramePlus.init env z).index_text_commands env
      ∧ (TintedFramePlus.init env w).logo_commands env
        = (TintedFramePlus.init env z).logo_commands env
      ∧ (TintedFramePlus.init env w).frame_top_commands env
        = (TintedFramePlus.init env z).frame_top_commands env
      ∧ (TintedFramePlus.init env w).frame_bottom_commands env
        = (TintedFramePlus.init env z).frame_bottom_commands env
      ∧ (TintedFramePlus.init env w).frame_commands env
        = (TintedFramePlus.init env z).frame_commands env
      ∧ (TintedFramePlus.init env w).black_title_commands
        = (TintedFramePlus.init env z).black_title_commands
      ∧ (TintedFramePlus.init env w).create env
        = (TintedFramePlus.init env z).create env) := by
  subst hpq; subst hrt; subst huv; subst hwz
  exact ⟨⟨rfl, rfl, rfl, rfl, rfl, rfl⟩,
    ⟨rfl, rfl, rfl, rfl, rfl, rfl, rfl⟩,
    ⟨rfl, rfl, rfl⟩,
    ⟨rfl, rfl, rfl, rfl, rfl, rfl, rfl, rfl⟩⟩

/-- Witness for C1: the purity theorem applied at concrete parameters
and a concrete environment. -/
theorem command_builders_pure_witness :
    (DawnTitleCard.init sampleEnv sampleDawnParams).index_text_commands
        sampleEnv
      = (DawnTitleCard.init sampleEnv sampleDawnParams).index_text_commands
        sampleEnv :=
  (command_builders_pure sampleEnv sampleDawnParams sampleDawnParams rfl
    sampleHorizonParams sampleHorizonParams rfl
    sampleSlimParams sampleSlimParams rfl
    sampleTFPParams sampleTFPParams rfl).1.1

/-- C6: for every card instance of every card class (for
TintedFramePlus whenever the top or bottom element is `'index'`): with
both texts hidden the index-text subcommand is empty; with only the
season text hidden the rendered index text is the episode text alone;
with only the episode text hidden it is the season text alone; and
otherwise it is the season text followed by the separator character and
the episode text (for SlimTitleCard the separator is its fixed `'• '`
label and each text is rendered once per annotation pass). -/
theorem index_text_selection (env : Env) (cd : DawnTitleCard)
    (ch : HorizonTitleCard) (cs : SlimTitleCard) (ct : TintedFramePlus) :
    ((cd.hide_season_text = true ∧ cd.hide_episode_text = true →
        cd.index_text_commands env = [])
      ∧ (cd.hide_season_text = true ∧ cd.hide_episode_text = false →
        annTexts (cd.index_text_commands env)
          = [cd.episode_text, cd.episode_text])
      ∧ (cd.hide_season_text = false ∧ cd.hide_episode_text = true →
        annTexts (cd.index_text_commands env)
          = [cd.season_text, cd.season_text])
      ∧ (cd.hide_season_text = false ∧ cd.hide_episode_text = false →
        annTexts (cd.index_text_commands env)
          = [cd.season_text ++ " " ++ cd.separator ++ " " ++ cd.episode_text,
            cd.season_text ++ " " ++ cd.separator ++ " " ++ cd.episode_text]))
    ∧ ((ch.hide_season_text = true ∧ ch.hide_episode_text = true →
        ch.index_text_commands env = [])
      ∧ (ch.hide_season_text = true ∧ ch.hide_episode_text = false →
        annTexts (ch.index_text_commands env)
          = [ch.episode_text, ch.episode_text])
      ∧ (ch.hide_season_text = false ∧ ch.hide_episode_text = true →
        annTexts (ch.index_text_commands env)
          = [ch.season_text, ch.season_text])
      ∧ (ch.hide_season_text = false ∧ ch.hide_episode_text = false →
        annTexts (ch.index_text_commands env)
          = [ch.season_text ++ " " ++ ch.separator ++ " " ++ ch.episode_text,
            ch.season_text ++ " " ++ ch.separator ++ " " ++ ch.episode_text]))
    ∧ ((cs.hide_season_text = true ∧ cs.hide_episode_text = true →
        cs.index_text_command = [])
      ∧ (cs.hide_season_text = true ∧ cs.hide_episode_text = false →
        annTexts cs.index_text_command
          = [cs.episode_text, cs.episode_text])
      ∧ (cs.hide_season_text = false ∧ cs.hide_episode_text = true →
        annTexts cs.index_text_command
          = [cs.season_text, cs.season_text])
      ∧ (cs.hide_season_text = false ∧ cs.hide_episode_text = false →
        annTexts cs.index_text_command
          = [cs.season_text, "• ", cs.episode_text,
            cs.season_text, "• ", cs.episode_text]))
    ∧ ((ct.top_element = Element.index ∨ ct.bottom_element = Element.index) →
      ((ct.hide_season_text = true ∧ ct.hide_episode_text = true →
          ct.index_text_commands env = [])
        ∧ (ct.hide_season_text = true ∧ ct.hide_episode_text = false →
          annTexts (ct.index_text_commands env) = [ct.episode_text])
        ∧ (ct.hide_season_text = false ∧ ct.hide_episode_text = true →
          annTexts (ct.index_text_commands env) = [ct.season_text])
        ∧ (ct.hide_season_text = false ∧ ct.hide_episode_text = false →
          annTexts (ct.index_text_commands env)
            = [ct.season_text ++ " " ++ ct.separator ++ " "
                ++ ct.episode_text]))) := by
  refine ⟨⟨?_, ?_, ?_, ?_⟩, ⟨?_, ?_, ?_, ?_⟩, ⟨?_, ?_, ?_, ?_⟩, ?_⟩
  · rintro ⟨h1, h2⟩
    simp [DawnTitleCard.index_text_commands, h1, h2]
  · rintro ⟨h1, h2⟩
    simp [DawnTitleCard.index_text_commands, h1, h2, annTexts]
  · rintro ⟨h1, h2⟩
    simp [DawnTitleCard.index_text_commands, h1, h2, annTexts]
  · rintro ⟨h1, h2⟩
    simp [DawnTitleCard.index_text_commands, h1, h2, annTexts]
  · rintro ⟨h1, h2⟩
    simp [HorizonTitleCard.index_text_commands, h1, h2]
  · rintro ⟨h1, h2⟩
    simp [HorizonTitleCard.index_text_commands, h1, h2, annTexts]
  · rintro ⟨h1, h2⟩
    simp [HorizonTitleCard.index_text_commands, h1, h2, annTexts]
  · rintro ⟨h1, h2⟩
    simp [HorizonTitleCard.index_text_commands, h1, h2, annTexts]
  · rintro ⟨h1, h2⟩
    simp [SlimTitleCard.index_text_command, h1, h2]
  · rintro ⟨h1, h2⟩
    simp [SlimTitleCard.index_text_command, h1, h2, annTexts,
      SlimTitleCard.series_count_text_global_effects,
      SlimTitleCard.series_count_text_black_stroke,
      SlimTitleCard.series_count_text_effects]
  · rintro ⟨h1, h2⟩
    simp [SlimTitleCard.index_text_command, h1, h2, annTexts,
      SlimTitleCard.series_count_text_global_effects,
      SlimTitleCard.series_count_text_black_stroke,
      SlimTitleCard.series_count_text_effects]
  · rintro ⟨h1, h2⟩
    simp [SlimTitleCard.index_text_command, h1, h2, annTexts,
      SlimTitleCard.series_count_text_global_effects,
      SlimTitleCard.series_count_text_black_stroke,
      SlimTitleCard.series_count_text_effects]
  · intro hel
    have hidx : ¬(ct.top_element ≠ Element.index
        ∧ ct.bottom_element ≠ Element.index) := by
      rcases hel with h | h
      · exact fun hc => hc.1 h
      · exact fun hc => hc.2 h
    refine ⟨?_, ?_, ?_, ?_⟩
    · rintro ⟨h1, h2⟩
      simp [TintedFramePlus.index_text_commands, h1, h2]
    · rintro ⟨h1, h2⟩
      simp [TintedFramePlus.index_text_commands, h1, h2, hidx, annTexts]
    · rintro ⟨h1, h2⟩
      simp [TintedFramePlus.index_text_commands, h1, h2, hidx, annTexts]
    · rintro ⟨h1, h2⟩
      simp [TintedFramePlus.index_text_commands, h1, h2, hidx, annTexts]

/-- C4: for Dawn, Horizon and TintedFramePlus card models, episode-text
font validation fails exactly when the font file does not exist after
the `'{title_font}'` substitution (Dawn and Horizon only) and the
search alongside the source image; on success the stored
`episode_text_font` is a path to an existing file. -/
theorem episode_text_font_validation (env : Env)
    (vd : DawnTitleCard.ModelValues) (vh : HorizonTitleCard.ModelValues)
    (vt : TintedFramePlus.ModelValues) :
    (((∃ e, DawnTitleCard.validate_episode_text_font_file env vd
          = Except.error e) ↔
        env.fsExists (DawnTitleCard.resolvedEpisodeTextFont env vd) = false)
      ∧ (env.fsExists (DawnTitleCard.resolvedEpisodeTextFont env vd) = true →
        DawnTitleCard.validate_episode_text_font_file env vd = Except.ok
          { vd with episode_text_font :=
              DawnTitleCard.resolvedEpisodeTextFont env vd })
      ∧ (∀ v', DawnTitleCard.validate_episode_text_font_file env vd
          = Except.ok v' → env.fsExists v'.episode_text_font = true))
    ∧ (((∃ e, HorizonTitleCard.validate_episode_text_font_file env vh
          = Except.error e) ↔
        env.fsExists (HorizonTitleCard.resolvedEpisodeTextFont env vh)
          = false)
      ∧ (env.fsExists (HorizonTitleCard.resolvedEpisodeTextFont env vh)
          = true →
        HorizonTitleCard.validate_episode_text_font_file env vh = Except.ok
          { vh with episode_text_font :=
              HorizonTitleCard.resolvedEpisodeTextFont env vh })
      ∧ (∀ v', HorizonTitleCard.validate_episode_text_font_file env vh
          = Except.ok v' → env.fsExists v'.episode_text_font = true))
    ∧ (((∃ e, TintedFramePlus.validate_episode_text_font_file env vt
          = Except.error e) ↔
        env.fsExists (TintedFramePlus.resolvedEpisodeTextFont env vt)
          = false)
      ∧ (env.fsExists (TintedFramePlus.resolvedEpisodeTextFont env vt)
          = true →
        TintedFramePlus.validate_episode_text_font_file env vt = Except.ok
          { vt with episode_text_font :=
              TintedFramePlus.resolvedEpisodeTextFont env vt })
      ∧ (∀ v', TintedFramePlus.validate_episode_text_font_file env vt
          = Except.ok v' → env.fsExists v'.episode_text_font = true)) := by
  refine ⟨⟨?_, ?_, ?_⟩, ⟨?_, ?_, ?_⟩, ⟨?_, ?_, ?_⟩⟩
  · by_cases hsub : vd.episode_text_font = "\x7btitle_font\x7d"
    · cases hff : env.fsExists vd.font_file <;>
        simp [DawnTitleCard.validate_episode_text_font_file,
          DawnTitleCard.resolvedEpisodeTextFont, hsub, hff]
    · cases hetf : env.fsExists vd.episode_text_font
      · cases halong : env.fsExists
            (pathJoin (pathParent vd.source_file)
              (pathName vd.episode_text_font)) <;>
          simp [DawnTitleCard.validate_episode_text_font_file,
            DawnTitleCard.resolvedEpisodeTextFont, hsub, hetf, halong]
      · simp [DawnTitleCard.validate_episode_text_font_file,
          DawnTitleCard.resolvedEpisodeTextFont, hsub, hetf]
  · intro hres
    by_cases hsub : vd.episode_text_font = "\x7btitle_font\x7d"
    · simp [DawnTitleCard.resolvedEpisodeTextFont, hsub] at hres
      simp [DawnTitleCard.validate_episode_text_font_file,
        DawnTitleCard.resolvedEpisodeTextFont, hsub, hres]
    · cases hetf : env.fsExists vd.episode_text_font
      · cases halong : env.fsExists
            (pathJoin (pathParent vd.source_file)
              (pathName vd.episode_text_font))
        · simp [DawnTitleCard.resolvedEpisodeTextFont, hsub, hetf,
            halong] at hres
        · simp [DawnTitleCard.validate_episode_text_font_file,
            DawnTitleCard.resolvedEpisodeTextFont, hsub, hetf, halong]
      · simp [DawnTitleCard.validate_episode_text_font_file,
          DawnTitleCard.resolvedEpisodeTextFont, hsub, hetf]
  · intro v' hok
    by_cases hsub : vd.episode_text_font = "\x7btitle_font\x7d"
    · cases hff : env.fsExists vd.font_file <;>
        simp [DawnTitleCard.validate_episode_text_font_file, hsub,
          hff] at hok
      subst hok; simpa using hff
    · cases hetf : env.fsExists vd.episode_text_font
      · cases halong : env.fsExists
            (pathJoin (pathParent vd.source_file)
              (pathName vd.episode_text_font)) <;>
          simp [DawnTitleCard.validate_episode_text_font_file, hsub,
            hetf, halong] at hok
        subst hok; simpa using halong
      · simp [DawnTitleCard.validate_episode_text_font_file, hsub,
          hetf] at hok
        subst hok; simpa using hetf
  · by_cases hsub : vh.episode_text_font = "\x7btitle_font\x7d"
    · cases hff : env.fsExists vh.font_file <;>
        simp [HorizonTitleCard.validate_episode_text_font_file,
          HorizonTitleCard.resolvedEpisodeTextFont, hsub, hff]
    · cases hetf : env.fsExists vh.episode_text_font
      · cases halong : env.fsExists
            (pathJoin (pathParent vh.source_file)
              (pathName vh.episode_text_font)) <;>
          simp [HorizonTitleCard.validate_episode_text_font_file,
            HorizonTitleCard.resolvedEpisodeTextFont, hsub, hetf, halong]
      · simp [HorizonTitleCard.validate_episode_text_font_file,
          HorizonTitleCard.resolvedEpisodeTextFont, hsub, hetf]
  · intro hres
    by_cases hsub : vh.episode_text_font = "\x7btitle_font\x7d"
    · simp [HorizonTitleCard.resolvedEpisodeTextFont, hsub] at hres
      simp [HorizonTitleCard.validate_episode_text_font_file,
        HorizonTitleCard.resolvedEpisodeTextFont, hsub, hres]
    · cases hetf : env.fsExists vh.episode_text_font
      · cases halong : env.fsExists
            (pathJoin (pathParent vh.source_file)
              (pathName vh.episode_text_font))
        · simp [HorizonTitleCard.resolvedEpisodeTextFont, hsub, hetf,
            halong] at hres
        · simp [HorizonTitleCard.validate_episode_text_font_file,
            HorizonTitleCard.resolvedEpisodeTextFont, hsub, hetf, halong]
      · simp [HorizonTitleCard.validate_episode_text_font_file,
          HorizonTitleCard.resolvedEpisodeTextFont, hsub, hetf]
  · intro v' hok
    by_cases hsub : vh.episode_text_font = "\x7btitle_font\x7d"
    · cases hff : env.fsExists vh.font_file <;>
        simp [HorizonTitleCard.validate_episode_text_font_file, hsub,
          hff] at hok
      subst hok; simpa using hff
    · cases hetf : env.fsExists vh.episode_text_font
      · cases halong : env.fsExists
            (pathJoin (pathParent vh.source_file)
              (pathName vh.episode_text_font)) <;>
          simp [HorizonTitleCard.validate_episode_text_font_file, hsub,
            hetf, halong] at hok
        subst hok; simpa using halong
      · simp [HorizonTitleCard.validate_episode_text_font_file, hsub,
          hetf] at hok
        subst hok; simpa using hetf
  · cases hetf : env.fsExists vt.episode_text_font
    · cases halong : env.fsExists
          (pathJoin (pathParent vt.source_file)
            (pathName vt.episode_text_font)) <;>
        simp [TintedFramePlus.validate_episode_text_font_file,
          TintedFramePlus.resolvedEpisodeTextFont, hetf, halong]
    · simp [TintedFramePlus.validate_episode_text_font_file,
        TintedFramePlus.resolvedEpisodeTextFont, hetf]
  · intro hres
    cases hetf : env.fsExists vt.episode_text_font
    · cases halong : env.fsExists
          (pathJoin (pathParent vt.source_file)
            (pathName vt.episode_text_font))
      · simp [TintedFramePlus.resolvedEpisodeTextFont, hetf, halong]
          at hres
      · simp [TintedFramePlus.validate_episode_text_font_file,
          TintedFramePlus.resolvedEpisodeTextFont, hetf, halong]
    · simp [TintedFramePlus.validate_episode_text_font_file,
        TintedFramePlus.resolvedEpisodeTextFont, hetf]
  · intro v' hok
    cases hetf : env.fsExists vt.episode_text_font
    · cases halong : env.fsExists
          (pathJoin (pathParent vt.source_file)
            (pathName vt.episode_text_font)) <;>
        simp [TintedFramePlus.validate_episode_text_font_file, hetf,
          halong] at hok
      subst hok; simpa using halong
    · simp [TintedFramePlus.validate_episode_text_font_file, hetf]
        at hok
      subst hok; simpa using hetf

/-- C5: `TintedFramePlus.CardModel.validate_extras` fails exactly when
a `'logo'` element is selected while the logo file does not exist, or
when two elements share the same non-`'omit'` value; on success the
`None` episode-text and frame colors have been replaced by the font
color and no two non-`'omit'` elements are equal. -/
theorem tinted_frame_plus_validate_extras (env : Env)
    (v : TintedFramePlus.ModelValues) :
    ((∃ e, TintedFramePlus.validate_extras env v = Except.error e) ↔
      (((v.top_element = Element.logo ∨ v.middle_element = Element.logo
          ∨ v.bottom_element = Element.logo)
          ∧ env.fsExists v.logo_file = false)
        ∨ (v.top_element ≠ Element.omitted
            ∧ (v.top_element = v.middle_element
              ∨ v.top_element = v.bottom_element))
        ∨ (v.middle_element ≠ Element.omitted
            ∧ v.middle_element = v.bottom_element)))
    ∧ (∀ v', TintedFramePlus.validate_extras env v = Except.ok v' →
        (v'.episode_text_color
            = some ((v.episode_text_color).getD v.font_color)
          ∧ v'.frame_color = some ((v.frame_color).getD v.font_color)
          ∧ (v'.top_element = Element.omitted
              ∨ (v'.top_element ≠ v'.middle_element
                ∧ v'.top_element ≠ v'.bottom_element))
          ∧ (v'.middle_element = Element.omitted
              ∨ v'.middle_element ≠ v'.bottom_element))) := by
  constructor
  · by_cases hlogo : (v.top_element = Element.logo
        ∨ v.middle_element = Element.logo
        ∨ v.bottom_element = Element.logo)
        ∧ ¬env.fsExists v.logo_file
    · simp only [TintedFramePlus.validate_extras, if_pos hlogo]
      simp only [Bool.not_eq_true] at hlogo
      simp [hlogo]
    · by_cases hdup : (v.top_element ≠ Element.omitted
          ∧ (v.top_element = v.middle_element
            ∨ v.top_element = v.bottom_element))
          ∨ (v.middle_element ≠ Element.omitted
            ∧ v.middle_element = v.bottom_element)
      · simp only [TintedFramePlus.validate_extras, if_neg hlogo,
          if_pos hdup]
        simp only [Bool.not_eq_true] at hlogo
        simp [hdup]
      · simp only [TintedFramePlus.validate_extras, if_neg hlogo,
          if_neg hdup]
        constructor
        · rintro ⟨e, he⟩
          rcases hec : v.episode_text_color with _ | c <;>
            rcases hfc : v.frame_color with _ | c' <;>
            simp [hec, hfc] at he
        · rintro (h | h | h)
          · exact absurd ⟨h.1, by simp [h.2]⟩ hlogo
          · exact absurd (Or.inl h) hdup
          · exact absurd (Or.inr h) hdup
  · intro v' hok
    simp only [TintedFramePlus.validate_extras] at hok
    split at hok
    · exact absurd hok (by simp)
    · split at hok
      · exact absurd hok (by simp)
      · rename_i hlogo hdup
        have hfields : v'.episode_text_color
              = some ((v.episode_text_color).getD v.font_color)
            ∧ v'.frame_color = some ((v.frame_color).getD v.font_color)
            ∧ v'.top_element = v.top_element
            ∧ v'.middle_element = v.middle_element
            ∧ v'.bottom_element = v.bottom_element := by
          rcases hec : v.episode_text_color with _ | c <;>
            rcases hfc : v.frame_color with _ | c' <;>
            simp [hec, hfc] at hok <;>
            simp [← hok, hec, hfc]
        push_neg at hdup
        refine ⟨hfields.1, hfields.2.1, ?_, ?_⟩
        · rw [hfields.2.2.1, hfields.2.2.2.1, hfields.2.2.2.2]
          by_cases ht : v.top_element = Element.omitted
          · exact Or.inl ht
          · exact Or.inr ⟨(hdup.1 ht).1, (hdup.1 ht).2⟩
        · rw [hfields.2.2.2.1, hfields.2.2.2.2]
          by_cases hm : v.middle_element = Element.omitted
          · exact Or.inl hm
          · exact Or.inr (hdup.2 hm)

/-- C3: for every TintedFramePlus instance whose top (respectively
bottom) element is an intersecting element that is present (index text
not fully hidden, or an existing logo), the top (respectively bottom)
frame subcommand is empty exactly when the centered element's
half-width plus the 25-pixel margin crosses the frame inset (left
boundary below `BOX_OFFSET`, or right boundary above `WIDTH` minus
`BOX_OFFSET`), and otherwise consists of exactly two rectangles running
from each inset corner to the element's boundary; with no intersecting
element it is a single uninterrupted rectangle. -/
theorem tinted_frame_plus_frame_segments (c : TintedFramePlus)
    (env : Env) :
    (((c.top_element = Element.index
          ∧ ¬(c.hide_season_text = true ∧ c.hide_episode_text = true))
        ∨ (c.top_element = Element.logo ∧ c.logoPresent env = true)) →
      ((c.frame_top_commands env = [] ↔
          (env.width / 2 - c.topElementWidth env / 2 - 25
              < TintedFramePlus.BOX_OFFSET
            ∨ env.width / 2 + c.topElementWidth env / 2 + 25
              > env.width - TintedFramePlus.BOX_OFFSET))
        ∧ (¬(env.width / 2 - c.topElementWidth env / 2 - 25
              < TintedFramePlus.BOX_OFFSET
            ∨ env.width / 2 + c.topElementWidth env / 2 + 25
              > env.width - TintedFramePlus.BOX_OFFSET) →
          c.frame_top_commands env =
            [Tok.rect TintedFramePlus.BOX_OFFSET TintedFramePlus.BOX_OFFSET
              (env.width / 2 - c.topElementWidth env / 2 - 25)
              (TintedFramePlus.BOX_OFFSET + (c.frame_width : Rat)),
              Tok.rect (env.width / 2 + c.topElementWidth env / 2 + 25)
                TintedFramePlus.BOX_OFFSET
                (env.width - TintedFramePlus.BOX_OFFSET)
                (TintedFramePlus.BOX_OFFSET + (c.frame_width : Rat))])))
    ∧ (¬((c.top_element = Element.index
          ∧ ¬(c.hide_season_text = true ∧ c.hide_episode_text = true))
        ∨ (c.top_element = Element.logo ∧ c.logoPresent env = true)) →
      c.frame_top_commands env =
        [Tok.rect TintedFramePlus.BOX_OFFSET TintedFramePlus.BOX_OFFSET
          (env.width - TintedFramePlus.BOX_OFFSET)
          (TintedFramePlus.BOX_OFFSET + (c.frame_width : Rat))])
    ∧ (((c.bottom_element = Element.index
          ∧ ¬(c.hide_season_text = true ∧ c.hide_episode_text = true))
        ∨ (c.bottom_element = Element.logo ∧ c.logoPresent env = true)) →
      ((c.frame_bottom_commands env = [] ↔
          (env.width / 2 - c.bottomElementWidth env / 2 - 25
              < TintedFramePlus.BOX_OFFSET
            ∨ env.width / 2 + c.bottomElementWidth env / 2 + 25
              > env.width - TintedFramePlus.BOX_OFFSET))
        ∧ (¬(env.width / 2 - c.bottomElementWidth env / 2 - 25
              < TintedFramePlus.BOX_OFFSET
            ∨ env.width / 2 + c.bottomElementWidth env / 2 + 25
              > env.width - TintedFramePlus.BOX_OFFSET) →
          c.frame_bottom_commands env =
            [Tok.rect TintedFramePlus.BOX_OFFSET
              (env.height - TintedFramePlus.BOX_OFFSET - (c.frame_width : Rat))
              (env.width / 2 - c.bottomElementWidth env / 2 - 25)
              (env.height - TintedFramePlus.BOX_OFFSET),
              Tok.rect (env.width / 2 + c.bottomElementWidth env / 2 + 25)
                (env.height - TintedFramePlus.BOX_OFFSET
                  - (c.frame_width : Rat))
                (env.width - TintedFramePlus.BOX_OFFSET)
                (env.height - TintedFramePlus.BOX_OFFSET)])))
    ∧ (¬((c.bottom_element = Element.index
          ∧ ¬(c.hide_season_text = true ∧ c.hide_episode_text = true))
        ∨ (c.bottom_element = Element.logo ∧ c.logoPresent env = true)) →
      c.frame_bottom_commands env =
        [Tok.rect TintedFramePlus.BOX_OFFSET
          (env.height - TintedFramePlus.BOX_OFFSET - (c.frame_width : Rat))
          (env.width - TintedFramePlus.BOX_OFFSET)
          (env.height - TintedFramePlus.BOX_OFFSET)]) := by
  refine ⟨?_, ?_, ?_, ?_⟩
  · intro hpres
    have hnot : ¬(c.top_element = Element.omitted
        ∨ (c.top_element = Element.index
          ∧ c.hide_season_text = true ∧ c.hide_episode_text = true)
        ∨ (c.top_element = Element.logo ∧ c.logoPresent env = false)) := by
      rcases hpres with ⟨hi, hv⟩ | ⟨hl, hp⟩
      · rintro (h | ⟨_, hs, he⟩ | ⟨hx, _⟩)
        · simp [hi] at h
        · exact hv ⟨hs, he⟩
        · simp [hi] at hx
      · rintro (h | ⟨hx, _, _⟩ | ⟨_, hnp⟩)
        · simp [hl] at h
        · simp [hl] at hx
        · simp [hp] at hnp
    simp only [TintedFramePlus.frame_top_commands]
    rw [if_neg hnot]
    by_cases hcross : env.width / 2 - c.topElementWidth env / 2 - 25
        < TintedFramePlus.BOX_OFFSET
        ∨ env.width / 2 + c.topElementWidth env / 2 + 25
          > env.width - TintedFramePlus.BOX_OFFSET
    · rw [if_pos hcross]
      exact ⟨⟨fun _ => hcross, fun _ => rfl⟩, fun hc => absurd hcross hc⟩
    · rw [if_neg hcross]
      exact ⟨⟨fun h => absurd h (by simp), fun hc => absurd hc hcross⟩,
        fun _ => rfl⟩
  · intro hnp
    push_neg at hnp
    have hcond : c.top_element = Element.omitted
        ∨ (c.top_element = Element.index
          ∧ c.hide_season_text = true ∧ c.hide_episode_text = true)
        ∨ (c.top_element = Element.logo ∧ c.logoPresent env = false) := by
      cases hte : c.top_element with
      | index =>
        rcases hnp.1 hte with ⟨hs, he⟩
        exact Or.inr (Or.inl ⟨rfl, hs, he⟩)
      | logo =>
        exact Or.inr (Or.inr ⟨rfl, by simpa using hnp.2 hte⟩)
      | omitted => exact Or.inl rfl
    simp only [TintedFramePlus.frame_top_commands]
    rw [if_pos hcond]
  · intro hpres
    have hnot : ¬(c.bottom_element = Element.omitted
        ∨ (c.bottom_element = Element.index
          ∧ c.hide_season_text = true ∧ c.hide_episode_text = true)
        ∨ (c.bottom_element = Element.logo ∧ c.logoPresent env = false)) := by
      rcases hpres with ⟨hi, hv⟩ | ⟨hl, hp⟩
      · rintro (h | ⟨_, hs, he⟩ | ⟨hx, _⟩)
        · simp [hi] at h
        · exact hv ⟨hs, he⟩
        · simp [hi] at hx
      · rintro (h | ⟨hx, _, _⟩ | ⟨_, hnp⟩)
        · simp [hl] at h
        · simp [hl] at hx
        · simp [hp] at hnp
    simp only [TintedFramePlus.frame_bottom_commands]
    rw [if_neg hnot]
    by_cases hcross : env.width / 2 - c.bottomElementWidth env / 2 - 25
        < TintedFramePlus.BOX_OFFSET
        ∨ env.width / 2 + c.bottomElementWidth env / 2 + 25
          > env.width - TintedFramePlus.BOX_OFFSET
    · rw [if_pos hcross]
      exact ⟨⟨fun _ => hcross, fun _ => rfl⟩, fun hc => absurd hcross hc⟩
    · rw [if_neg hcross]
      exact ⟨⟨fun h => absurd h (by simp), fun hc => absurd hc hcross⟩,
        fun _ => rfl⟩
  · intro hnp
    push_neg at hnp
    have hcond : c.bottom_element = Element.omitted
        ∨ (c.bottom_element = Element.index
          ∧ c.hide_season_text = true ∧ c.hide_episode_text = true)
        ∨ (c.bottom_element = Element.logo ∧ c.logoPresent env = false) := by
      cases hte : c.bottom_element with
      | index =>
        rcases hnp.1 hte with ⟨hs, he⟩
        exact Or.inr (Or.inl ⟨rfl, hs, he⟩)
      | logo =>
        exact Or.inr (Or.inr ⟨rfl, by simpa using hnp.2 hte⟩)
      | omitted => exact Or.inl rfl
    simp only [TintedFramePlus.frame_bottom_commands]
    rw [if_pos hcond]
